import Mathlib

/-!
Verification of the quantish-server key-custody / request-authentication /
wallet-derivation core against its specification.

The TypeScript sources are shallowly embedded:
* JS strings are modelled as `List Char` (`Str`); Node `Buffer`s and byte
  streams as `List Nat` with every byte `< 256` by construction.
* Impure inputs (random IVs and key bytes, `Date.now()`, the HTTP outcome
  seen by `fetch`) are passed explicitly as arguments.
* Fallible code returns `Except`/`Option`.
The cryptographic primitives used by the code through Node `crypto` and
`ethers` (keccak-256, SHA-256, HMAC, AES-256-GCM, base64, ABI encoding,
CREATE2) are implemented concretely and executably; known-answer theorems
(proved by `decide`) pin them to published test vectors.
-/

set_option maxRecDepth 100000

namespace Quantish

/-- JS strings are modelled as lists of unicode scalar values. -/
abbrev Str := List Char

/-! ## Byte-level utilities -/

/-- Big-endian byte encoding of `n`, `k` bytes wide (as `ethers.utils.solidityPack`
and the ABI coder produce for `uintN` values). Every byte is `< 256`. -/
def toBytesBE : Nat → Nat → List Nat
  | 0, _ => []
  | k + 1, n => toBytesBE k (n / 256) ++ [n % 256]

/-- Big-endian value of a byte list. -/
def beVal (bs : List Nat) : Nat := bs.foldl (fun acc b => acc * 256 + b) 0

/-- Little-endian value of a byte list (keccak lanes are little-endian). -/
def leVal (bs : List Nat) : Nat := bs.foldr (fun b acc => acc * 256 + b) 0

/-- Little-endian byte encoding, `k` bytes wide. -/
def toBytesLE : Nat → Nat → List Nat
  | 0, _ => []
  | k + 1, n => n % 256 :: toBytesLE k (n / 256)

/-- Value of a hex digit character. -/
def hexVal (c : Char) : Nat :=
  if '0' ≤ c ∧ c ≤ '9' then c.toNat - '0'.toNat
  else if 'a' ≤ c ∧ c ≤ 'f' then c.toNat - 'a'.toNat + 10
  else if 'A' ≤ c ∧ c ≤ 'F' then c.toNat - 'A'.toNat + 10
  else 0

def isHexDigit (c : Char) : Bool :=
  ('0' ≤ c ∧ c ≤ '9') ∨ ('a' ≤ c ∧ c ≤ 'f') ∨ ('A' ≤ c ∧ c ≤ 'F')

/-- Decode a hex string two characters per byte (`Buffer.from(s, "hex")` on
an even-length hex string). -/
def hexToBytes : List Char → List Nat
  | c1 :: c2 :: rest => (hexVal c1 * 16 + hexVal c2) :: hexToBytes rest
  | _ => []

/-- Lowercase hex character of a nibble. -/
def hexChar (n : Nat) : Char := "0123456789abcdef".data.getD (n % 16) '0'

/-- Lowercase hex rendering of a byte list (Node `digest("hex")`,
ethers `hexlify`). -/
def bytesToHex (bs : List Nat) : Str :=
  bs.foldr (fun b acc => hexChar (b / 16) :: hexChar b :: acc) []

/-! ## UTF-8 encoding/decoding

Node encodes JS strings to bytes as UTF-8 (`Buffer.from(s, "utf8")`,
`hash.update(string)`, `cipher.update(s, "utf8")`) and decodes with
`buf.toString("utf8")`. -/

/-- UTF-8 bytes of one scalar value. -/
def utf8EncodeChar (c : Char) : List Nat :=
  let n := c.toNat
  if n < 0x80 then [n]
  else if n < 0x800 then [0xC0 + n / 64, 0x80 + n % 64]
  else if n < 0x10000 then [0xE0 + n / 4096, 0x80 + n / 64 % 64, 0x80 + n % 64]
  else [0xF0 + n / 262144, 0x80 + n / 4096 % 64, 0x80 + n / 64 % 64, 0x80 + n % 64]

/-- UTF-8 bytes of a string. -/
def utf8Encode (s : Str) : List Nat := (s.map utf8EncodeChar).flatten

/-- UTF-8 decoding, fuel-driven (one unit of fuel per decoded character, so
the byte length is always enough fuel). A lead byte determines how many
continuation bytes are consumed; missing bytes default to zero, standing in
for Node's U+FFFD replacement behaviour on malformed input, which no claim
depends on. -/
def utf8DecodeAux : Nat → List Nat → Str
  | 0, _ => []
  | _ + 1, [] => []
  | fuel + 1, b0 :: rest =>
    if b0 < 0x80 then Char.ofNat b0 :: utf8DecodeAux fuel rest
    else if b0 < 0xC0 then Char.ofNat 0xFFFD :: utf8DecodeAux fuel rest
    else if b0 < 0xE0 then
      Char.ofNat ((b0 - 0xC0) * 64 + (rest.getD 0 0 - 0x80)) :: utf8DecodeAux fuel (rest.drop 1)
    else if b0 < 0xF0 then
      Char.ofNat ((b0 - 0xE0) * 4096 + (rest.getD 0 0 - 0x80) * 64 + (rest.getD 1 0 - 0x80)) ::
        utf8DecodeAux fuel (rest.drop 2)
    else
      Char.ofNat ((b0 - 0xF0) * 262144 + (rest.getD 0 0 - 0x80) * 4096 +
        (rest.getD 1 0 - 0x80) * 64 + (rest.getD 2 0 - 0x80)) :: utf8DecodeAux fuel (rest.drop 3)

/-- UTF-8 decoding of a byte list (`buf.toString("utf8")`). -/
def utf8Decode (bs : List Nat) : Str := utf8DecodeAux bs.length bs

/-! ## Keccak-256 (as used by `ethers.utils.keccak256`) -/

namespace Keccak

def U64 : Nat := 2 ^ 64

def rotl64 (x r : Nat) : Nat :=
  ((x <<< r) ||| (x >>> (64 - r))) % U64

/-- Round-constant LFSR bit `rc(t)` of the Keccak reference. -/
def rcByte : Nat → Nat
  | 0 => 1
  | t + 1 =>
    let r := rcByte t <<< 1
    if r ≥ 256 then (r ^^^ 0x71) % 256 else r

/-- Round constant of round `ir`. -/
def roundConst (ir : Nat) : Nat :=
  (List.range 7).foldl (fun acc j => acc ||| ((rcByte (j + 7 * ir) % 2) <<< (2 ^ j - 1))) 0

/-- The rho-offset walk: pairs `(laneIndex, rotation)` for `t = 0..23`,
starting from lane (1,0); lane 0 keeps offset 0. -/
def rhoPairs : Nat → Nat × Nat → Nat → List (Nat × Nat)
  | 0, _, _ => []
  | fuel + 1, (x, y), t =>
    (x + 5 * y, (t + 1) * (t + 2) / 2 % 64) :: rhoPairs fuel (y, (2 * x + 3 * y) % 5) (t + 1)

def rhoOffset (i : Nat) : Nat := ((rhoPairs 24 (1, 0) 0).lookup i).getD 0

def getLane (st : List Nat) (x y : Nat) : Nat := st.getD (x % 5 + 5 * (y % 5)) 0

def theta (st : List Nat) : List Nat :=
  let c := (List.range 5).map fun x =>
    getLane st x 0 ^^^ getLane st x 1 ^^^ getLane st x 2 ^^^ getLane st x 3 ^^^ getLane st x 4
  let d := (List.range 5).map fun x =>
    c.getD ((x + 4) % 5) 0 ^^^ rotl64 (c.getD ((x + 1) % 5) 0) 1
  (List.range 25).map fun i => st.getD i 0 ^^^ d.getD (i % 5) 0

/-- Combined rho and pi: output lane `(X, Y)` receives the rotated source lane
`(x, y)` with `y = X` and `(2x + 3y) mod 5 = Y`. -/
def rhoPi (st : List Nat) : List Nat :=
  (List.range 25).map fun j =>
    let src := (List.range 25).find? fun i =>
      (i / 5 = j % 5) ∧ ((2 * (i % 5) + 3 * (i / 5)) % 5 = j / 5)
    match src with
    | some i => rotl64 (st.getD i 0) (rhoOffset i)
    | none => 0

def chi (st : List Nat) : List Nat :=
  (List.range 25).map fun j =>
    let x := j % 5
    let y := j / 5
    getLane st x y ^^^ ((getLane st (x + 1) y ^^^ (U64 - 1)) &&& getLane st (x + 2) y)

def iota (ir : Nat) (st : List Nat) : List Nat :=
  match st with
  | a :: rest => (a ^^^ roundConst ir) :: rest
  | [] => []

def keccakRound (st : List Nat) (ir : Nat) : List Nat := iota ir (chi (rhoPi (theta st)))

def keccakF (st : List Nat) : List Nat := (List.range 24).foldl keccakRound st

/-- Multi-rate padding for keccak-256 (domain byte 0x01, rate 136). -/
def keccakPad (len : Nat) : List Nat :=
  let r := 136 - len % 136
  if r = 1 then [0x81]
  else 0x01 :: (List.replicate (r - 2) 0 ++ [0x80])

/-- Split into 136-byte blocks; fuel-driven structural recursion. -/
def toBlocks : Nat → List Nat → List (List Nat)
  | 0, _ => []
  | _ + 1, [] => []
  | fuel + 1, l => l.take 136 :: toBlocks fuel (l.drop 136)

def absorbBlock (st : List Nat) (block : List Nat) : List Nat :=
  keccakF ((List.range 25).map fun i =>
    if i < 17 then st.getD i 0 ^^^ leVal ((block.drop (8 * i)).take 8)
    else st.getD i 0)

end Keccak

/-- keccak-256 of a byte list: a 32-byte digest. -/
def keccak256 (msg : List Nat) : List Nat :=
  let padded := msg ++ Keccak.keccakPad msg.length
  let final := (Keccak.toBlocks (padded.length / 136 + 1) padded).foldl
    Keccak.absorbBlock (List.replicate 25 0)
  toBytesLE 8 (final.getD 0 0) ++ toBytesLE 8 (final.getD 1 0) ++
    toBytesLE 8 (final.getD 2 0) ++ toBytesLE 8 (final.getD 3 0)

/-- Absorb phase of the keccak sponge: fold the blocks into the zero state. -/
def keccakAbsorb (blocks : List (List Nat)) : List Nat :=
  blocks.foldl Keccak.absorbBlock (List.replicate 25 0)

/-- Squeeze phase of keccak-256: the first four lanes, little-endian. -/
def keccakSqueeze (st : List Nat) : List Nat :=
  toBytesLE 8 (st.getD 0 0) ++ toBytesLE 8 (st.getD 1 0) ++
    toBytesLE 8 (st.getD 2 0) ++ toBytesLE 8 (st.getD 3 0)

/-- Unfolding of `keccak256` into padding, absorb and squeeze. -/
theorem keccak256_sponge (msg : List Nat) :
    keccak256 msg = keccakSqueeze (keccakAbsorb
      (Keccak.toBlocks ((msg ++ Keccak.keccakPad msg.length).length / 136 + 1)
        (msg ++ Keccak.keccakPad msg.length))) := rfl

/-- Known-answer test: keccak-256 of the empty input. -/
theorem keccak256_empty_vector :
    keccak256 [] = [0xc5, 0xd2, 0x46, 0x01, 0x86, 0xf7, 0x23, 0x3c, 0x92, 0x7e, 0x7d, 0xb2,
      0xdc, 0xc7, 0x03, 0xc0, 0xe5, 0x00, 0xb6, 0x53, 0xca, 0x82, 0x27, 0x3b, 0x7b, 0xfa,
      0xd8, 0x04, 0x5d, 0x85, 0xa4, 0x70] := by decide

/-- Known-answer test: keccak-256 of ASCII "abc". -/
theorem keccak256_abc_vector :
    keccak256 (utf8Encode "abc".data) =
      hexToBytes "4e03657aea45a94fc7d47ba826c8d667c0d1e6e33a64a036ec44f58fa12d6c45".data := by
  decide

/-! ## Safe address derivation
(`predictSafeAddress` in src/unnamed/part_002, `calculateSafeAddress` in
src/unnamed/part_003). Ethereum addresses are modelled by their 160-bit value. -/

namespace Safe

/-- One ABI word: the 32-byte big-endian encoding of a `uint256`/`address`. -/
def abiWord (n : Nat) : List Nat := toBytesBE 32 n

/-- `ethers.utils.defaultAbiCoder.encode` of the `setup` argument tuple
`(address[], uint256, address, bytes, address, address, uint256, address)`
with values `([owner], 1, AddressZero, "0x", AddressZero, AddressZero, 0,
AddressZero)`: an 8-word head whose two dynamic slots hold the tail offsets
0x100 (the array) and 0x140 (the bytes), then the array tail
`[length = 1, owner]` and the empty-`bytes` tail `[length = 0]`. -/
def abiEncodeSetupArgs (owner : Nat) : List Nat :=
  abiWord 0x100 ++ abiWord 1 ++ abiWord 0 ++ abiWord 0x140 ++
    abiWord 0 ++ abiWord 0 ++ abiWord 0 ++ abiWord 0 ++
    abiWord 1 ++ abiWord owner ++ abiWord 0

/-- Canonical signature of the Safe `setup` function, as normalised by
`ethers.utils.Interface` from the fragment in part_003. -/
def setupSignatureAscii : Str :=
  "setup(address[],uint256,address,bytes,address,address,uint256,address)".data

/-- 4-byte function selector: the first four bytes of the keccak-256 digest of
the canonical signature. -/
def setupSelector : List Nat := (keccak256 (utf8Encode setupSignatureAscii)).take 4

/-- `Interface.encodeFunctionData("setup", args)`: the selector followed by the
ABI-encoded arguments. -/
def encodeSetupFunctionData (owner : Nat) : List Nat :=
  setupSelector ++ abiEncodeSetupArgs owner

/-- `ethers.utils.solidityPack(["bytes32", "uint256"], [h, n])`. -/
def solidityPackBytes32Uint256 (h : List Nat) (n : Nat) : List Nat := h ++ toBytesBE 32 n

/-- `ethers.utils.solidityPack(["bytes", "uint256"], [bs, n])`. -/
def solidityPackBytesUint256 (bs : List Nat) (n : Nat) : List Nat := bs ++ toBytesBE 32 n

/-- ethers address checksumming (`getAddress`): the i-th hex character of the
lowercase 40-character address is uppercased iff the i-th nibble of the
keccak-256 digest of that lowercase ASCII string is at least 8. -/
def checksumAddress (addr20 : List Nat) : Str :=
  let lower := bytesToHex addr20
  let hashed := keccak256 (utf8Encode lower)
  '0' :: 'x' :: (List.range 40).map fun i =>
    let c := lower.getD i '0'
    let nib := if i % 2 = 0 then hashed.getD (i / 2) 0 / 16 else hashed.getD (i / 2) 0 % 16
    if nib ≥ 8 then c.toUpper else c

/-- `ethers.utils.getCreate2Address(from, salt, initCodeHash)`: the last 20
bytes of `keccak256(0xff ++ from ++ salt ++ initCodeHash)`, checksummed. -/
def getCreate2Address (fromAddr : Nat) (salt initCodeHash : List Nat) : Str :=
  checksumAddress ((keccak256 (0xff :: (toBytesBE 20 fromAddr ++ salt ++ initCodeHash))).drop 12)

/-- The proxy creation bytecode literal embedded in `predictSafeAddress`
(src/unnamed/part_002). -/
def proxyCreationCodeHex : Str :=
  "608060405234801561001057600080fd5b506040516101e63803806101e68339818101604052602081101561003357600080fd5b8101908080519060200190929190505050600073ffffffffffffffffffffffffffffffffffffffff168173ffffffffffffffffffffffffffffffffffffffff1614156100ca576040517f08c379a00000000000000000000000000000000000000000000000000000000081526004018080602001828103825260228152602001806101c46022913960400191505060405180910390fd5b806000806101000a81548173ffffffffffffffffffffffffffffffffffffffff021916908373ffffffffffffffffffffffffffffffffffffffff1602179055505060ab806101196000396000f3fe608060405273ffffffffffffffffffffffffffffffffffffffff600054167fa619486e0000000000000000000000000000000000000000000000000000000060003514156050578060005260206000f35b3660008037600080366000845af43d6000803e60008114156070573d6000fd5b3d6000f3fea264697066735822122003d1488ee65e08fa41e58e888a9865554c535f2c77126a82cb4c0f917f31441364736f6c63430007060033496e76616c69642073696e676c65746f6e20616464726573732070726f7669646564".data

/-- The proxy creation bytecode literal embedded in `calculateSafeAddress`
(src/unnamed/part_003). -/
def proxyBytecodeHex : Str :=
  "608060405234801561001057600080fd5b506040516101e63803806101e68339818101604052602081101561003357600080fd5b8101908080519060200190929190505050600073ffffffffffffffffffffffffffffffffffffffff168173ffffffffffffffffffffffffffffffffffffffff1614156100ca576040517f08c379a00000000000000000000000000000000000000000000000000000000081526004018080602001828103825260228152602001806101c46022913960400191505060405180910390fd5b806000806101000a81548173ffffffffffffffffffffffffffffffffffffffff021916908373ffffffffffffffffffffffffffffffffffffffff1602179055505060ab806101196000396000f3fe608060405273ffffffffffffffffffffffffffffffffffffffff600054167fa619486e0000000000000000000000000000000000000000000000000000000060003514156050578060005260206000f35b3660008037600080366000845af43d6000803e60008114156070573d6000fd5b3d6000f3fea264697066735822122003d1488ee65e08fa41e58e888a9865554c535f2c77126a82cb4c0f917f31441364736f6c63430007060033496e76616c69642073696e676c65746f6e20616464726573732070726f7669646564".data

/-- The two files embed the identical bytecode constant. -/
theorem proxyBytecode_literals_agree : proxyCreationCodeHex = proxyBytecodeHex := rfl

/-- Default proxy-factory constant `0xaacFeEa03eb1561C4e67d661e40682Bd20E3541b`
(the default parameter in part_002 and `POLYGON_CONTRACTS.safeProxyFactory`
in part_003 — the same value). -/
def defaultProxyFactory : Nat := 0xaacFeEa03eb1561C4e67d661e40682Bd20E3541b

/-- Default singleton constant `0x69f4D1788e39c87893C980c06EdF4b7f686e2938`
(the default parameter in part_002 and `POLYGON_CONTRACTS.safeSingleton`
in part_003 — the same value). -/
def defaultSingleton : Nat := 0x69f4D1788e39c87893C980c06EdF4b7f686e2938

/-- `predictSafeAddress` (src/unnamed/part_002 lines 64–114): ABI-encodes the
setup arguments (no function selector), double-hashes for the salt, appends
the singleton to the bytecode and takes the CREATE2 address. -/
def predictSafeAddress (eoaAddress safeProxyFactory safeSingleton : Nat) : Str :=
  let initializerData := abiEncodeSetupArgs eoaAddress
  let salt := keccak256 (solidityPackBytes32Uint256 (keccak256 initializerData) 0)
  let proxyCreationCode := solidityPackBytesUint256 (hexToBytes proxyCreationCodeHex) safeSingleton
  getCreate2Address safeProxyFactory salt (keccak256 proxyCreationCode)

/-- `predictSafeAddress` applied to its default factory and singleton. -/
def predictSafeAddressDefaults (eoaAddress : Nat) : Str :=
  predictSafeAddress eoaAddress defaultProxyFactory defaultSingleton

/-- `calculateSafeAddress` (src/unnamed/part_003 lines 71–116): encodes the
call to `setup` via `Interface.encodeFunctionData` (selector included),
double-hashes for the salt with `saltNonce = 0`, appends the singleton to the
bytecode and takes the CREATE2 address. -/
def calculateSafeAddress (ownerAddress proxyFactory singleton : Nat) : Str :=
  let setupData := encodeSetupFunctionData ownerAddress
  let saltNonce := 0
  let salt := keccak256 (solidityPackBytes32Uint256 (keccak256 setupData) saltNonce)
  let initCode := solidityPackBytesUint256 (hexToBytes proxyBytecodeHex) singleton
  getCreate2Address proxyFactory salt (keccak256 initCode)

/-- `calculateSafeAddress` applied to its default factory and singleton. -/
def calculateSafeAddressDefaults (ownerAddress : Nat) : Str :=
  calculateSafeAddress ownerAddress defaultProxyFactory defaultSingleton

/-- The spec's §4.4 algorithm, stated in the spec's own vocabulary:
`setupCalldata` is the ABI-encoded call to `setup` (selector plus arguments
with owners = [owner], threshold = 1, rest zero/empty/null);
`salt = keccak256(keccak256(setupCalldata) ++ uint256(0))`;
`initCode` is the proxy creation bytecode followed by the singleton encoded
as a `uint256`; the result is the CREATE2 address. -/
def specSafeAddress (ownerAddress proxyFactory singleton : Nat) : Str :=
  let setupCalldata := setupSelector ++ abiEncodeSetupArgs ownerAddress
  let salt := keccak256 (keccak256 setupCalldata ++ toBytesBE 32 0)
  let initCode := hexToBytes proxyBytecodeHex ++ toBytesBE 32 singleton
  getCreate2Address proxyFactory salt (keccak256 initCode)

/-- Known-answer test: the canonical `setup` selector is `0xb63e800d`. -/
theorem setupSelector_vector : setupSelector = [0xb6, 0x3e, 0x80, 0x0d] := by decide

end Safe

/-! ## SHA-256 (Node `crypto.createHash("sha256")`) -/

namespace Sha2

def U32 : Nat := 2 ^ 32

def rotr32 (x r : Nat) : Nat := ((x >>> r) ||| (x <<< (32 - r))) % U32

def bigSigma0 (x : Nat) : Nat := rotr32 x 2 ^^^ rotr32 x 13 ^^^ rotr32 x 22

def bigSigma1 (x : Nat) : Nat := rotr32 x 6 ^^^ rotr32 x 11 ^^^ rotr32 x 25

def smallSigma0 (x : Nat) : Nat := rotr32 x 7 ^^^ rotr32 x 18 ^^^ (x >>> 3)

def smallSigma1 (x : Nat) : Nat := rotr32 x 17 ^^^ rotr32 x 19 ^^^ (x >>> 10)

/-- Group bytes into big-endian 32-bit words. -/
def bytesToWords32 : List Nat → List Nat
  | a :: b :: c :: d :: rest => (((a * 256 + b) * 256 + c) * 256 + d) :: bytesToWords32 rest
  | _ => []

/-- The 64 round constants (fractional cube-root parts of the first primes),
as one hex string. -/
def shaK : List Nat :=
  bytesToWords32 (hexToBytes "428a2f9871374491b5c0fbcfe9b5dba53956c25b59f111f1923f82a4ab1c5ed5d807aa9812835b01243185be550c7dc372be5d7480deb1fe9bdc06a7c19bf174e49b69c1efbe47860fc19dc6240ca1cc2de92c6f4a7484aa5cb0a9dc76f988da983e5152a831c66db00327c8bf597fc7c6e00bf3d5a7914706ca63511429296727b70a852e1b21384d2c6dfc53380d13650a7354766a0abb81c2c92e92722c85a2bfe8a1a81a664bc24b8b70c76c51a3d192e819d6990624f40e3585106aa07019a4c1161e376c082748774c34b0bcb5391c0cb34ed8aa4a5b9cca4f682e6ff3748f82ee78a5636f84c878148cc7020890befffaa4506cebbef9a3f7c67178f2".data)

/-- Initial hash state (fractional square-root parts of the first primes). -/
def shaH0 : List Nat :=
  bytesToWords32 (hexToBytes "6a09e667bb67ae853c6ef372a54ff53a510e527f9b05688c1f83d9ab5be0cd19".data)

/-- SHA-2 padding: 0x80, zeros, and the 64-bit big-endian bit length. -/
def shaPad (len : Nat) : List Nat :=
  0x80 :: List.replicate ((64 - (len + 9) % 64) % 64) 0 ++ toBytesBE 8 (8 * len)

/-- The 64-entry message schedule of one 64-byte block. -/
def schedule (block : List Nat) : List Nat :=
  (List.range 64).foldl
    (fun w i =>
      if i < 16 then w ++ [beVal ((block.drop (4 * i)).take 4)]
      else w ++ [(smallSigma1 (w.getD (i - 2) 0) + w.getD (i - 7) 0 +
        smallSigma0 (w.getD (i - 15) 0) + w.getD (i - 16) 0) % U32])
    []

/-- One round of the compression function on the 8-word working state. -/
def shaRound (w : List Nat) (st : List Nat) (i : Nat) : List Nat :=
  match st with
  | [a, b, c, d, e, f, g, h] =>
    let t1 := (h + bigSigma1 e + ((e &&& f) ^^^ ((U32 - 1 - e) &&& g)) +
      shaK.getD i 0 + w.getD i 0) % U32
    let t2 := (bigSigma0 a + ((a &&& b) ^^^ (a &&& c) ^^^ (b &&& c))) % U32
    [(t1 + t2) % U32, a, b, c, (d + t1) % U32, e, f, g]
  | st => st

def compress (st : List Nat) (block : List Nat) : List Nat :=
  let w := schedule block
  let out := (List.range 64).foldl (shaRound w) st
  (List.range 8).map fun i => (st.getD i 0 + out.getD i 0) % U32

/-- Split into 64-byte blocks; fuel-driven structural recursion. -/
def toBlocks64 : Nat → List Nat → List (List Nat)
  | 0, _ => []
  | _ + 1, [] => []
  | fuel + 1, l => l.take 64 :: toBlocks64 fuel (l.drop 64)

end Sha2

/-- SHA-256 of a byte list: a 32-byte digest. -/
def sha256 (msg : List Nat) : List Nat :=
  let padded := msg ++ Sha2.shaPad msg.length
  let final := (Sha2.toBlocks64 (padded.length / 64 + 1) padded).foldl Sha2.compress Sha2.shaH0
  (final.map (toBytesBE 4)).flatten

/-- Known-answer test: SHA-256 of the empty input. -/
theorem sha256_empty_vector :
    sha256 [] =
      hexToBytes "e3b0c44298fc1c149afbf4c8996fb92427ae41e4649b934ca495991b7852b855".data := by
  decide

/-- Known-answer test: SHA-256 of ASCII "abc". -/
theorem sha256_abc_vector :
    sha256 (utf8Encode "abc".data) =
      hexToBytes "ba7816bf8f01cfea414140de5dae2223b00361a396177a9cb410ff61f20015ad".data := by
  decide

/-- HMAC-SHA256 (Node `crypto.createHmac("sha256", secret)`), block size 64. -/
def hmacSha256 (key msg : List Nat) : List Nat :=
  let k0 := if key.length > 64 then sha256 key else key
  let kPad := k0 ++ List.replicate (64 - k0.length) 0
  sha256 ((kPad.map (fun b => b ^^^ 0x5c)) ++ sha256 ((kPad.map (fun b => b ^^^ 0x36)) ++ msg))

/-- Known-answer test: RFC 4231 test case 2 (key "Jefe"). -/
theorem hmacSha256_rfc4231_vector :
    hmacSha256 (utf8Encode "Jefe".data) (utf8Encode "what do ya want for nothing?".data) =
      hexToBytes "5bdcc146bf60754e6a042426089575c75a003f089d2739839dec58b964ec3843".data := by
  decide

/-! ## Base64 (Node `Buffer.toString("base64")`, `digest("base64")`,
`toString("base64url")` and the forgiving `Buffer.from(s, "base64")` decoder) -/

def b64CharStd (n : Nat) : Char :=
  "ABCDEFGHIJKLMNOPQRSTUVWXYZabcdefghijklmnopqrstuvwxyz0123456789+/".data.getD n 'A'

def b64CharUrl (n : Nat) : Char :=
  "ABCDEFGHIJKLMNOPQRSTUVWXYZabcdefghijklmnopqrstuvwxyz0123456789-_".data.getD n 'A'

/-- Standard base64 encoding with `=` padding. -/
def base64Encode : List Nat → Str
  | b1 :: b2 :: b3 :: rest =>
    b64CharStd (b1 / 4) :: b64CharStd (b1 % 4 * 16 + b2 / 16) ::
      b64CharStd (b2 % 16 * 4 + b3 / 64) :: b64CharStd (b3 % 64) :: base64Encode rest
  | [b1, b2] => [b64CharStd (b1 / 4), b64CharStd (b1 % 4 * 16 + b2 / 16), b64CharStd (b2 % 16 * 4), '=']
  | [b1] => [b64CharStd (b1 / 4), b64CharStd (b1 % 4 * 16), '=', '=']
  | [] => []

/-- URL-safe base64 encoding without padding (Node `"base64url"`). -/
def base64UrlEncode : List Nat → Str
  | b1 :: b2 :: b3 :: rest =>
    b64CharUrl (b1 / 4) :: b64CharUrl (b1 % 4 * 16 + b2 / 16) ::
      b64CharUrl (b2 % 16 * 4 + b3 / 64) :: b64CharUrl (b3 % 64) :: base64UrlEncode rest
  | [b1, b2] => [b64CharUrl (b1 / 4), b64CharUrl (b1 % 4 * 16 + b2 / 16), b64CharUrl (b2 % 16 * 4)]
  | [b1] => [b64CharUrl (b1 / 4), b64CharUrl (b1 % 4 * 16)]
  | [] => []

/-- Value of a base64 character; Node accepts both the standard and the
URL-safe alphabet when decoding. -/
def b64Val (c : Char) : Nat :=
  if 'A' ≤ c ∧ c ≤ 'Z' then c.toNat - 'A'.toNat
  else if 'a' ≤ c ∧ c ≤ 'z' then c.toNat - 'a'.toNat + 26
  else if '0' ≤ c ∧ c ≤ '9' then c.toNat - '0'.toNat + 52
  else if c = '+' ∨ c = '-' then 62
  else 63

def isB64Char (c : Char) : Bool :=
  ('A' ≤ c ∧ c ≤ 'Z') ∨ ('a' ≤ c ∧ c ≤ 'z') ∨ ('0' ≤ c ∧ c ≤ '9') ∨
    c = '+' ∨ c = '/' ∨ c = '-' ∨ c = '_'

/-- Decode groups of four base64 characters into three bytes; a trailing group
of three (resp. two) characters yields two bytes (resp. one). -/
def b64DecodeChars : Str → List Nat
  | c1 :: c2 :: c3 :: c4 :: rest =>
    (b64Val c1 * 4 + b64Val c2 / 16) :: (b64Val c2 % 16 * 16 + b64Val c3 / 4) ::
      (b64Val c3 % 4 * 64 + b64Val c4) :: b64DecodeChars rest
  | [c1, c2, c3] => [b64Val c1 * 4 + b64Val c2 / 16, b64Val c2 % 16 * 16 + b64Val c3 / 4]
  | [c1, c2] => [b64Val c1 * 4 + b64Val c2 / 16]
  | _ => []

/-- Node's forgiving base64 decoder (`Buffer.from(s, "base64")`): data stops at
the first `=`, characters outside the alphabet are ignored. -/
def nodeBase64Decode (s : Str) : List Nat :=
  b64DecodeChars ((s.takeWhile (· ≠ '=')).filter isB64Char)

/-! ## HMAC signing utilities (src/packages/core/src/crypto/hmac.ts)

The `body` of `HmacSignatureInput` is `unknown` in TypeScript; it is modelled
by a JS value type carrying exactly what the code observes: truthiness
(`body ? … : ""`) and the `JSON.stringify` image. Composite values (arrays,
objects) are abstracted by their serialised form. `Date.now()` is passed in
explicitly as `now`. -/

inductive JsValue where
  | jsNull : JsValue
  | jsBool : Bool → JsValue
  | jsNum : Int → JsValue
  | jsStr : Str → JsValue
  | jsComposite : Str → JsValue

/-- JS truthiness: `null`, `false`, `0` and `""` are falsy; arrays and objects
are always truthy. -/
def jsTruthy : JsValue → Bool
  | .jsNull => false
  | .jsBool b => b
  | .jsNum n => n ≠ 0
  | .jsStr s => s ≠ []
  | .jsComposite _ => true

/-- `JSON.stringify`, with composite values abstracted by their stored
serialisation and string escaping elided (no claim depends on it). -/
def stringifyJson : JsValue → Str
  | .jsNull => "null".data
  | .jsBool true => "true".data
  | .jsBool false => "false".data
  | .jsNum n => (toString n).data
  | .jsStr s => '"' :: (s ++ ['"'])
  | .jsComposite r => r

/-- `HmacSignatureInput` (src/unnamed/part_001 lines 352–358). -/
structure HmacSignatureInput where
  method : Str
  path : Str
  body : Option JsValue
  timestamp : Int
  secret : Str

/-- `createHmacSignature` (hmac.ts lines 21–35): signs
`timestamp ++ method ++ path ++ bodyString` with HMAC-SHA256 and renders the
digest in base64; `bodyString` is `JSON.stringify(body)` when `body` is
truthy and `""` otherwise. -/
def createHmacSignature (input : HmacSignatureInput) : Str :=
  let bodyString := match input.body with
    | some v => if jsTruthy v then stringifyJson v else []
    | none => []
  let message := (toString input.timestamp).data ++ input.method ++ input.path ++ bodyString
  base64Encode (hmacSha256 (utf8Encode input.secret) (utf8Encode message))

structure VerifyResult where
  valid : Bool
  reason : Option Str

/-- The expiry message `verifyHmacSignature` interpolates. -/
def expiredReason (timeDiff maxAllowed : Nat) : Str :=
  "Request timestamp expired. Time difference: ".data ++ (toString timeDiff).data ++
    "ms, max allowed: ".data ++ (toString maxAllowed).data ++ "ms".data

/-- `verifyHmacSignature` (hmac.ts lines 40–78): rejects when
`|now - timestamp|` exceeds the validity window, otherwise recomputes the
signature, decodes both from base64, compares lengths and then the bytes
(`crypto.timingSafeEqual`, modelled as equality of the decoded byte lists). -/
def verifyHmacSignature (signature : Str) (method path : Str) (body : Option JsValue)
    (timestamp : Int) (secret : Str) (validityWindowSeconds : Nat) (now : Int) : VerifyResult :=
  let timeDiff := (now - timestamp).natAbs
  if timeDiff > validityWindowSeconds * 1000 then
    { valid := false, reason := some (expiredReason timeDiff (validityWindowSeconds * 1000)) }
  else
    let expectedSignature := createHmacSignature ⟨method, path, body, timestamp, secret⟩
    let signatureBuffer := nodeBase64Decode signature
    let expectedBuffer := nodeBase64Decode expectedSignature
    if signatureBuffer.length ≠ expectedBuffer.length then
      { valid := false, reason := some "Invalid signature length".data }
    else
      let isValid := signatureBuffer = expectedBuffer
      if isValid then { valid := true, reason := none }
      else { valid := false, reason := some "Signature mismatch".data }

structure ApiKeyBundle where
  key : Str
  keyPrefix : Str
  keyHash : Str

/-- `generateApiKey` (hmac.ts lines 116–127): `key = prefix ++ "_" ++
base64url(24 random bytes)`, `keyPrefix = key.substring(0, 12)`,
`keyHash = sha256(key)` in hex. The random bytes are passed in explicitly. -/
def generateApiKey (pfx : Str) (randomBytes24 : List Nat) : ApiKeyBundle :=
  let randomPart := base64UrlEncode randomBytes24
  let key := pfx ++ '_' :: randomPart
  { key := key
    keyPrefix := key.take 12
    keyHash := bytesToHex (sha256 (utf8Encode key)) }

/-- `hashApiKey` (hmac.ts lines 132–134). -/
def hashApiKey (key : Str) : Str := bytesToHex (sha256 (utf8Encode key))

/-! ## AES-256-GCM (Node `crypto.createCipheriv("aes-256-gcm", key, iv,
\x7b authTagLength: 16 \x7d)` used by the KeyVault in src/unnamed/part_004) -/

namespace Aes

def rotl8 (x r : Nat) : Nat := ((x <<< r) ||| (x >>> (8 - r))) % 256

/-- Carry-less multiplication in GF(2^8) with reduction polynomial 0x11B. -/
def gfMulAux : Nat → Nat → Nat → Nat → Nat
  | 0, _, _, acc => acc
  | fuel + 1, a, b, acc =>
    let acc' := if b % 2 = 1 then acc ^^^ a else acc
    let a' := if a ≥ 128 then (a * 2) ^^^ 0x11B else a * 2
    gfMulAux fuel a' (b / 2) acc'

def gfMul (a b : Nat) : Nat := gfMulAux 8 a b 0

/-- GF(2^8) inverse as x^254 (0 maps to 0), by square and multiply. -/
def gfInv (x : Nat) : Nat :=
  let x2 := gfMul x x
  let x4 := gfMul x2 x2
  let x8 := gfMul x4 x4
  let x16 := gfMul x8 x8
  let x32 := gfMul x16 x16
  let x64 := gfMul x32 x32
  let x128 := gfMul x64 x64
  gfMul x128 (gfMul x64 (gfMul x32 (gfMul x16 (gfMul x8 (gfMul x4 x2)))))

/-- The AES S-box: multiplicative inverse followed by the affine transform. -/
def sbox (b : Nat) : Nat :=
  let i := gfInv b
  i ^^^ rotl8 i 1 ^^^ rotl8 i 2 ^^^ rotl8 i 3 ^^^ rotl8 i 4 ^^^ 0x63

def U32 : Nat := 2 ^ 32

def subWord (w : Nat) : Nat := beVal ((toBytesBE 4 w).map sbox)

def rotWord (w : Nat) : Nat := ((w <<< 8) ||| (w >>> 24)) % U32

/-- Round constant `rcon(i) = 2^(i-1)` in GF(2^8), in the top byte. -/
def rcon (i : Nat) : Nat := (List.range (i - 1)).foldl (fun a _ => gfMul 2 a) 1 <<< 24

/-- AES-256 key expansion: 60 32-bit words from the 32-byte key. -/
def expandKey (key : List Nat) : List Nat :=
  (List.range 52).foldl
    (fun w j =>
      let i := j + 8
      let prev := w.getD (i - 1) 0
      let temp :=
        if i % 8 = 0 then subWord (rotWord prev) ^^^ rcon (i / 8)
        else if i % 8 = 4 then subWord prev
        else prev
      w ++ [w.getD (i - 8) 0 ^^^ temp])
    ((List.range 8).map fun i => beVal ((key.drop (4 * i)).take 4))

/-- Bytes of round key `r` (words `4r..4r+3`, big-endian). -/
def roundKey (w : List Nat) (r : Nat) : List Nat :=
  (((w.drop (4 * r)).take 4).map (toBytesBE 4)).flatten

/-- The 16-byte state is kept in column-major order: byte `i` sits in
column `i / 4`, row `i % 4`. Row `r` rotates left by `r`. -/
def shiftRows (st : List Nat) : List Nat :=
  (List.range 16).map fun j => st.getD (4 * ((j / 4 + j % 4) % 4) + j % 4) 0

def mixColumn (a0 a1 a2 a3 : Nat) : List Nat :=
  [gfMul 2 a0 ^^^ gfMul 3 a1 ^^^ a2 ^^^ a3,
   a0 ^^^ gfMul 2 a1 ^^^ gfMul 3 a2 ^^^ a3,
   a0 ^^^ a1 ^^^ gfMul 2 a2 ^^^ gfMul 3 a3,
   gfMul 3 a0 ^^^ a1 ^^^ a2 ^^^ gfMul 2 a3]

def mixColumns (st : List Nat) : List Nat :=
  ((List.range 4).map fun c =>
    mixColumn (st.getD (4 * c) 0) (st.getD (4 * c + 1) 0)
      (st.getD (4 * c + 2) 0) (st.getD (4 * c + 3) 0)).flatten

def addRoundKey (st rk : List Nat) : List Nat := List.zipWith (fun a b => a ^^^ b) st rk

/-- One AES main round: SubBytes, ShiftRows, MixColumns, then AddRoundKey with
round key `r + 1`. -/
def aesRound (w st : List Nat) (r : Nat) : List Nat :=
  addRoundKey (mixColumns (shiftRows (st.map sbox))) (roundKey w (r + 1))

end Aes

/-- AES-256 block encryption (14 rounds); the output bytes are reduced mod 256
as the canonical byte representation. -/
def aesBlock (key block : List Nat) : List Nat :=
  let w := Aes.expandKey key
  let st0 := Aes.addRoundKey block (Aes.roundKey w 0)
  let stMain := (List.range 13).foldl (Aes.aesRound w) st0
  (Aes.addRoundKey (Aes.shiftRows (stMain.map Aes.sbox)) (Aes.roundKey w 14)).map (· % 256)

/-- Unfolding of `aesBlock` into its key expansion, initial whitening, the
13-round fold and the final round. -/
theorem aesBlock_rounds (key block : List Nat) :
    aesBlock key block =
      (Aes.addRoundKey (Aes.shiftRows (((List.range 13).foldl (Aes.aesRound (Aes.expandKey key))
          (Aes.addRoundKey block (Aes.roundKey (Aes.expandKey key) 0))).map Aes.sbox))
        (Aes.roundKey (Aes.expandKey key) 14)).map (· % 256) := rfl

/-- The round indices of the 13 main AES-256 rounds. -/
theorem range_thirteen : List.range 13 = [0, 1, 2, 3, 4, 5, 6, 7, 8, 9, 10, 11, 12] := rfl

/-- Expanded key schedule of the FIPS-197 appendix C.3 AES-256 key. -/
def wFips : List Nat :=
  [66051, 67438087, 134810123, 202182159, 269554195, 336926231, 404298267, 471670303,
   2775827103, 2708915352, 2843725459, 2775761052, 374450381, 38059738, 442344641, 104905438,
   2928140272, 267459432, 2794378747, 66852199, 1843523912, 1873104786, 1979247443, 1941459341,
   3327558271, 3383204119, 1864977644, 1825921419, 1038236277, 1380414951, 666869428,
   1409797945, 199004255, 3262843208, 2907850148, 3246857263, 1173726816, 397595527, 806178099,
   1678410250, 2094003996, 3199532628, 333888496, 3529615327, 4028300030, 3886557561,
   3617940554, 3014649408, 625081969, 2616524837, 2282994645, 1517427722, 1314547353,
   2851229664, 2119642026, 3455634922, 620526028, 3205069289, 924500540, 1835589174]

set_option maxHeartbeats 400000 in
/-- Key expansion of the FIPS-197 C.3 key. -/
theorem fipsExpandKey :
    Aes.expandKey (hexToBytes "000102030405060708090a0b0c0d0e0f101112131415161718191a1b1c1d1e1f".data) = wFips := by
  decide

set_option maxHeartbeats 400000 in
/-- Initial AddRoundKey whitening of this AES evaluation. -/
theorem fipsWhiten :
    Aes.addRoundKey (hexToBytes "00112233445566778899aabbccddeeff".data) (Aes.roundKey wFips 0) =
      [0, 16, 32, 48, 64, 80, 96, 112, 128, 144, 160, 176, 192, 208, 224, 240] := by
  decide

set_option maxHeartbeats 400000 in
/-- State after AES round 1 of this evaluation. -/
theorem fipsRound1 :
    Aes.aesRound wFips
      [0, 16, 32, 48, 64, 80, 96, 112, 128, 144, 160, 176, 192, 208, 224, 240] 0 =
      [79, 99, 118, 6, 67, 224, 170, 133, 239, 167, 33, 50, 1, 164, 231, 5] := by
  decide

set_option maxHeartbeats 400000 in
/-- State after AES round 2 of this evaluation. -/
theorem fipsRound2 :
    Aes.aesRound wFips
      [79, 99, 118, 6, 67, 224, 170, 133, 239, 167, 33, 50, 1, 164, 231, 5] 1 =
      [24, 89, 251, 194, 138, 28, 0, 160, 120, 237, 138, 173, 196, 47, 97, 9] := by
  decide

set_option maxHeartbeats 400000 in
/-- State after AES round 3 of this evaluation. -/
theorem fipsRound3 :
    Aes.aesRound wFips
      [24, 89, 251, 194, 138, 28, 0, 160, 120, 237, 138, 173, 196, 47, 97, 9] 2 =
      [151, 92, 102, 193, 203, 159, 63, 168, 169, 58, 40, 223, 142, 225, 15, 99] := by
  decide

set_option maxHeartbeats 400000 in
/-- State after AES round 4 of this evaluation. -/
theorem fipsRound4 :
    Aes.aesRound wFips
      [151, 92, 102, 193, 203, 159, 63, 168, 169, 58, 40, 223, 142, 225, 15, 99] 3 =
      [28, 5, 242, 113, 164, 23, 224, 79, 249, 33, 197, 193, 4, 112, 21, 84] := by
  decide

set_option maxHeartbeats 400000 in
/-- State after AES round 5 of this evaluation. -/
theorem fipsRound5 :
    Aes.aesRound wFips
      [28, 5, 242, 113, 164, 23, 224, 79, 249, 33, 197, 193, 4, 112, 21, 84] 4 =
      [195, 87, 170, 225, 27, 69, 183, 176, 162, 199, 189, 40, 168, 220, 153, 250] := by
  decide

set_option maxHeartbeats 400000 in
/-- State after AES round 6 of this evaluation. -/
theorem fipsRound6 :
    Aes.aesRound wFips
      [195, 87, 170, 225, 27, 69, 183, 176, 162, 199, 189, 40, 168, 220, 153, 250] 5 =
      [127, 7, 65, 67, 203, 78, 36, 62, 193, 12, 129, 93, 131, 117, 213, 76] := by
  decide

set_option maxHeartbeats 400000 in
/-- State after AES round 7 of this evaluation. -/
theorem fipsRound7 :
    Aes.aesRound wFips
      [127, 7, 65, 67, 203, 78, 36, 62, 193, 12, 129, 93, 131, 117, 213, 76] 6 =
      [214, 83, 164, 105, 108, 160, 188, 15, 90, 202, 171, 93, 185, 108, 94, 125] := by
  decide

set_option maxHeartbeats 400000 in
/-- State after AES round 8 of this evaluation. -/
theorem fipsRound8 :
    Aes.aesRound wFips
      [214, 83, 164, 105, 108, 160, 188, 15, 90, 202, 171, 93, 185, 108, 94, 125] 7 =
      [90, 168, 88, 57, 95, 210, 141, 125, 5, 225, 163, 136, 104, 243, 185, 197] := by
  decide

set_option maxHeartbeats 400000 in
/-- State after AES round 9 of this evaluation. -/
theorem fipsRound9 :
    Aes.aesRound wFips
      [90, 168, 88, 57, 95, 210, 141, 125, 5, 225, 163, 136, 104, 243, 185, 197] 8 =
      [74, 130, 72, 81, 197, 126, 126, 71, 100, 61, 229, 12, 42, 243, 232, 201] := by
  decide

set_option maxHeartbeats 400000 in
/-- State after AES round 10 of this evaluation. -/
theorem fipsRound10 :
    Aes.aesRound wFips
      [74, 130, 72, 81, 197, 126, 126, 71, 100, 61, 229, 12, 42, 243, 232, 201] 9 =
      [193, 73, 7, 246, 202, 59, 58, 160, 112, 233, 170, 49, 59, 82, 181, 236] := by
  decide

set_option maxHeartbeats 400000 in
/-- State after AES round 11 of this evaluation. -/
theorem fipsRound11 :
    Aes.aesRound wFips
      [193, 73, 7, 246, 202, 59, 58, 160, 112, 233, 170, 49, 59, 82, 181, 236] 10 =
      [95, 156, 106, 191, 186, 198, 52, 170, 80, 64, 159, 167, 102, 103, 118, 83] := by
  decide

set_option maxHeartbeats 400000 in
/-- State after AES round 12 of this evaluation. -/
theorem fipsRound12 :
    Aes.aesRound wFips
      [95, 156, 106, 191, 186, 198, 52, 170, 80, 64, 159, 167, 102, 103, 118, 83] 11 =
      [81, 102, 4, 149, 67, 83, 149, 3, 20, 251, 134, 228, 1, 146, 37, 33] := by
  decide

set_option maxHeartbeats 400000 in
/-- State after AES round 13 of this evaluation. -/
theorem fipsRound13 :
    Aes.aesRound wFips
      [81, 102, 4, 149, 67, 83, 149, 3, 20, 251, 134, 228, 1, 146, 37, 33] 12 =
      [98, 123, 206, 185, 153, 157, 90, 170, 201, 69, 236, 244, 35, 245, 109, 165] := by
  decide

set_option maxHeartbeats 400000 in
/-- Known-answer test: FIPS-197 appendix C.3 (AES-256), assembled from the round-by-round stage lemmas. -/
theorem aesBlock_fips197_vector :
    aesBlock (hexToBytes "000102030405060708090a0b0c0d0e0f101112131415161718191a1b1c1d1e1f".data)
      (hexToBytes "00112233445566778899aabbccddeeff".data) =
      hexToBytes "8ea2b7ca516745bfeafc49904b496089".data := by
  rw [aesBlock_rounds, fipsExpandKey, fipsWhiten, range_thirteen]
  simp only [List.foldl_cons, List.foldl_nil]
  rw [fipsRound1, fipsRound2, fipsRound3, fipsRound4, fipsRound5, fipsRound6, fipsRound7, fipsRound8, fipsRound9, fipsRound10, fipsRound11, fipsRound12, fipsRound13]
  decide

namespace Gcm

def U128 : Nat := 2 ^ 128

/-- GCM's GF(2^128) multiplication (bit-reflected convention, reduction by
`R = 0xE1` in the top byte). -/
def gf128MulAux : Nat → Nat → Nat → Nat → Nat
  | 0, _, _, z => z
  | fuel + 1, x, v, z =>
    let z' := if x >>> 127 % 2 = 1 then z ^^^ v else z
    let v' := if v % 2 = 1 then (v >>> 1) ^^^ (0xE1 <<< 120) else v >>> 1
    gf128MulAux fuel ((x <<< 1) % U128) v' z'

def gf128Mul (x y : Nat) : Nat := gf128MulAux 128 x y 0

/-- GHASH over 16-byte chunks; fuel-driven structural recursion. -/
def ghashAux (h : Nat) : Nat → List Nat → Nat → Nat
  | 0, _, y => y
  | _ + 1, [], y => y
  | fuel + 1, l, y => ghashAux h fuel (l.drop 16) (gf128Mul (y ^^^ beVal (l.take 16)) h)

def ghash (h : Nat) (data : List Nat) : Nat := ghashAux h (data.length / 16 + 1) data 0

/-- Zero-pad to a multiple of 16 bytes. -/
def pad16 (l : List Nat) : List Nat := l ++ List.replicate ((16 - l.length % 16) % 16) 0

/-- The hash subkey `H = AES_K(0^128)`. -/
def subkeyH (key : List Nat) : Nat := beVal (aesBlock key (List.replicate 16 0))

/-- The pre-counter block: `IV ++ 0^31 ++ 1` for 12-byte IVs, otherwise
`GHASH_H(IV ++ pad ++ len64(IV))` — the KeyVault uses 16-byte IVs, so the
second branch applies. -/
def j0 (key iv : List Nat) : List Nat :=
  if iv.length = 12 then iv ++ [0, 0, 0, 1]
  else toBytesBE 16 (ghash (subkeyH key) (pad16 iv ++ toBytesBE 8 0 ++ toBytesBE 8 (8 * iv.length)))

/-- Counter block `inc32^i(J0)`. -/
def incAt (jblock : List Nat) (i : Nat) : List Nat :=
  jblock.take 12 ++ toBytesBE 4 ((beVal (jblock.drop 12) + i) % 2 ^ 32)

/-- The first `n` CTR keystream bytes, counting from `inc32(J0)`. -/
def keystream (key jblock : List Nat) (n : Nat) : List Nat :=
  (((List.range (n / 16 + 1)).map fun i => aesBlock key (incAt jblock (i + 1))).flatten).take n

end Gcm

/-- GCM encryption of the plaintext bytes (no AAD): XOR with the keystream. -/
def gcmEncryptBytes (key iv pt : List Nat) : List Nat :=
  List.zipWith (fun a b => a ^^^ b) pt (Gcm.keystream key (Gcm.j0 key iv) pt.length)

/-- GCM decryption of the ciphertext bytes: the same XOR. -/
def gcmDecryptBytes (key iv ct : List Nat) : List Nat :=
  List.zipWith (fun a b => a ^^^ b) ct (Gcm.keystream key (Gcm.j0 key iv) ct.length)

/-- The 16-byte authentication tag over the ciphertext (no AAD):
`GHASH_H(C ++ pad ++ len64(A) ++ len64(C)) ⊕ AES_K(J0)`. -/
def gcmTag (key iv ct : List Nat) : List Nat :=
  let s := Gcm.ghash (Gcm.subkeyH key)
    (Gcm.pad16 ct ++ toBytesBE 8 0 ++ toBytesBE 8 (8 * ct.length))
  toBytesBE 16 (s ^^^ beVal (aesBlock key (Gcm.j0 key iv)))

/-- Expanded key schedule of the all-zero 32-byte key (the NIST AES-256-GCM
test-vector key). -/
def wZk : List Nat :=
  [0, 0, 0, 0, 0, 0, 0, 0, 1650680675, 1650680675, 1650680675, 1650680675, 2868640763,
   2868640763, 2868640763, 2868640763, 1869376719, 219090860, 1869376719, 219090860, 2106428778,
   3614865041, 2106428778, 3614865041, 1398074817, 1583080045, 825724578, 1010336014,
   2525659585, 1107097424, 1014069818, 3943107755, 2661977896, 3237047621, 4056343527,
   3456000745, 724642783, 1791876239, 1455204021, 3183192606, 1678179666, 2767687703,
   1429304304, 2563707161, 1841015051, 125203844, 1372246833, 3966859567, 3887130780,
   1128757387, 376834939, 2394495586, 1961692065, 1939570213, 575778068, 3458257979, 284690967,
   1405055644, 1170831847, 3413140357]

set_option maxHeartbeats 400000 in
/-- Key expansion of the all-zero key. -/
theorem zkExpandKey :
    Aes.expandKey (List.replicate 32 0) = wZk := by
  decide

set_option maxHeartbeats 400000 in
/-- Initial AddRoundKey whitening of this AES evaluation. -/
theorem zkA0Whiten :
    Aes.addRoundKey (List.replicate 16 0) (Aes.roundKey wZk 0) =
      [0, 0, 0, 0, 0, 0, 0, 0, 0, 0, 0, 0, 0, 0, 0, 0] := by
  decide

set_option maxHeartbeats 400000 in
/-- State after AES round 1 of this evaluation. -/
theorem zkA0Round1 :
    Aes.aesRound wZk
      [0, 0, 0, 0, 0, 0, 0, 0, 0, 0, 0, 0, 0, 0, 0, 0] 0 =
      [99, 99, 99, 99, 99, 99, 99, 99, 99, 99, 99, 99, 99, 99, 99, 99] := by
  decide

set_option maxHeartbeats 400000 in
/-- State after AES round 2 of this evaluation. -/
theorem zkA0Round2 :
    Aes.aesRound wZk
      [99, 99, 99, 99, 99, 99, 99, 99, 99, 99, 99, 99, 99, 99, 99, 99] 1 =
      [153, 152, 152, 152, 153, 152, 152, 152, 153, 152, 152, 152, 153, 152, 152, 152] := by
  decide

set_option maxHeartbeats 400000 in
/-- State after AES round 3 of this evaluation. -/
theorem zkA0Round3 :
    Aes.aesRound wZk
      [153, 152, 152, 152, 153, 152, 152, 152, 153, 152, 152, 152, 153, 152, 152, 152] 2 =
      [167, 21, 21, 94, 167, 21, 21, 94, 167, 21, 21, 94, 167, 21, 21, 94] := by
  decide

set_option maxHeartbeats 400000 in
/-- State after AES round 4 of this evaluation. -/
theorem zkA0Round4 :
    Aes.aesRound wZk
      [167, 21, 21, 94, 167, 21, 21, 94, 167, 21, 21, 94, 167, 21, 21, 94] 3 =
      [61, 49, 51, 155, 95, 82, 80, 248, 61, 49, 51, 155, 95, 82, 80, 248] := by
  decide

set_option maxHeartbeats 400000 in
/-- State after AES round 5 of this evaluation. -/
theorem zkA0Round5 :
    Aes.aesRound wZk
      [61, 49, 51, 155, 95, 82, 80, 248, 61, 49, 51, 155, 95, 82, 80, 248] 4 =
      [177, 181, 244, 66, 71, 205, 228, 103, 177, 181, 244, 66, 71, 205, 228, 103] := by
  decide

set_option maxHeartbeats 400000 in
/-- State after AES round 6 of this evaluation. -/
theorem zkA0Round6 :
    Aes.aesRound wZk
      [177, 181, 244, 66, 71, 205, 228, 103, 177, 181, 244, 66, 71, 205, 228, 103] 5 =
      [62, 162, 105, 145, 36, 221, 49, 114, 92, 193, 10, 242, 70, 190, 82, 17] := by
  decide

set_option maxHeartbeats 400000 in
/-- State after AES round 7 of this evaluation. -/
theorem zkA0Round7 :
    Aes.aesRound wZk
      [62, 162, 105, 145, 36, 221, 49, 114, 92, 193, 10, 242, 70, 190, 82, 17] 6 =
      [84, 138, 161, 181, 36, 187, 33, 107, 248, 44, 183, 51, 95, 242, 121, 177] := by
  decide

set_option maxHeartbeats 400000 in
/-- State after AES round 8 of this evaluation. -/
theorem zkA0Round8 :
    Aes.aesRound wZk
      [84, 138, 161, 181, 36, 187, 33, 107, 248, 44, 183, 51, 95, 242, 121, 177] 7 =
      [154, 109, 79, 128, 92, 49, 57, 105, 190, 167, 206, 97, 244, 18, 108, 189] := by
  decide

set_option maxHeartbeats 400000 in
/-- State after AES round 9 of this evaluation. -/
theorem zkA0Round9 :
    Aes.aesRound wZk
      [154, 109, 79, 128, 92, 49, 57, 105, 190, 167, 206, 97, 244, 18, 108, 189] 8 =
      [227, 224, 215, 180, 135, 2, 38, 220, 44, 245, 194, 248, 97, 165, 39, 47] := by
  decide

set_option maxHeartbeats 400000 in
/-- State after AES round 10 of this evaluation. -/
theorem zkA0Round10 :
    Aes.aesRound wZk
      [227, 224, 215, 180, 135, 2, 38, 220, 44, 245, 194, 248, 97, 165, 39, 47] 9 =
      [239, 131, 238, 25, 250, 245, 110, 5, 53, 216, 137, 124, 211, 186, 41, 167] := by
  decide

set_option maxHeartbeats 400000 in
/-- State after AES round 11 of this evaluation. -/
theorem zkA0Round11 :
    Aes.aesRound wZk
      [239, 131, 238, 25, 250, 245, 110, 5, 53, 216, 137, 124, 211, 186, 41, 167] 10 =
      [2, 29, 33, 136, 143, 185, 15, 132, 34, 188, 92, 154, 128, 126, 230, 214] := by
  decide

set_option maxHeartbeats 400000 in
/-- State after AES round 12 of this evaluation. -/
theorem zkA0Round12 :
    Aes.aesRound wZk
      [2, 29, 33, 136, 143, 185, 15, 132, 34, 188, 92, 154, 128, 126, 230, 214] 11 =
      [79, 67, 92, 238, 64, 179, 62, 102, 135, 91, 107, 101, 54, 5, 76, 151] := by
  decide

set_option maxHeartbeats 400000 in
/-- State after AES round 13 of this evaluation. -/
theorem zkA0Round13 :
    Aes.aesRound wZk
      [79, 67, 92, 238, 64, 179, 62, 102, 135, 91, 107, 101, 54, 5, 76, 151] 12 =
      [39, 186, 159, 47, 43, 179, 100, 126, 200, 125, 16, 106, 21, 145, 99, 6] := by
  decide

set_option maxHeartbeats 400000 in
/-- AES of the zero block under the zero key: the bytes of the GHASH subkey `H`. -/
theorem zkAesZeroBlock :
    aesBlock (List.replicate 32 0)
      (List.replicate 16 0) =
      [220, 149, 192, 120, 162, 64, 137, 137, 173, 72, 162, 20, 146, 132, 32, 135] := by
  rw [aesBlock_rounds, zkExpandKey, zkA0Whiten, range_thirteen]
  simp only [List.foldl_cons, List.foldl_nil]
  rw [zkA0Round1, zkA0Round2, zkA0Round3, zkA0Round4, zkA0Round5, zkA0Round6, zkA0Round7, zkA0Round8, zkA0Round9, zkA0Round10, zkA0Round11, zkA0Round12, zkA0Round13]
  decide

set_option maxHeartbeats 400000 in
/-- Initial AddRoundKey whitening of this AES evaluation. -/
theorem zkJ0Whiten :
    Aes.addRoundKey (hexToBytes "00000000000000000000000000000001".data) (Aes.roundKey wZk 0) =
      [0, 0, 0, 0, 0, 0, 0, 0, 0, 0, 0, 0, 0, 0, 0, 1] := by
  decide

set_option maxHeartbeats 400000 in
/-- State after AES round 1 of this evaluation. -/
theorem zkJ0Round1 :
    Aes.aesRound wZk
      [0, 0, 0, 0, 0, 0, 0, 0, 0, 0, 0, 0, 0, 0, 0, 1] 0 =
      [124, 124, 66, 93, 99, 99, 99, 99, 99, 99, 99, 99, 99, 99, 99, 99] := by
  decide

set_option maxHeartbeats 400000 in
/-- State after AES round 2 of this evaluation. -/
theorem zkJ0Round2 :
    Aes.aesRound wZk
      [124, 124, 66, 93, 99, 99, 99, 99, 99, 99, 99, 99, 99, 99, 99, 99] 1 =
      [84, 115, 115, 190, 46, 47, 90, 237, 78, 250, 45, 79, 191, 85, 115, 115] := by
  decide

set_option maxHeartbeats 400000 in
/-- State after AES round 3 of this evaluation. -/
theorem zkJ0Round3 :
    Aes.aesRound wZk
      [84, 115, 115, 190, 46, 47, 90, 237, 78, 250, 45, 79, 191, 85, 115, 115] 2 =
      [130, 13, 239, 83, 158, 180, 11, 77, 49, 232, 210, 83, 10, 171, 140, 193] := by
  decide

set_option maxHeartbeats 400000 in
/-- State after AES round 4 of this evaluation. -/
theorem zkJ0Round4 :
    Aes.aesRound wZk
      [130, 13, 239, 83, 158, 180, 11, 77, 49, 232, 210, 83, 10, 171, 140, 193] 3 =
      [8, 194, 11, 50, 36, 104, 123, 143, 96, 246, 82, 253, 103, 77, 197, 56] := by
  decide

set_option maxHeartbeats 400000 in
/-- State after AES round 5 of this evaluation. -/
theorem zkJ0Round5 :
    Aes.aesRound wZk
      [8, 194, 11, 50, 36, 104, 123, 143, 96, 246, 82, 253, 103, 77, 197, 56] 4 =
      [213, 48, 241, 113, 248, 22, 48, 105, 160, 142, 125, 47, 220, 142, 104, 169] := by
  decide

set_option maxHeartbeats 400000 in
/-- State after AES round 6 of this evaluation. -/
theorem zkJ0Round6 :
    Aes.aesRound wZk
      [213, 48, 241, 113, 248, 22, 48, 105, 160, 142, 125, 47, 220, 142, 104, 169] 5 =
      [176, 16, 34, 193, 17, 68, 206, 175, 153, 228, 62, 200, 54, 175, 52, 181] := by
  decide

set_option maxHeartbeats 400000 in
/-- State after AES round 7 of this evaluation. -/
theorem zkJ0Round7 :
    Aes.aesRound wZk
      [176, 16, 34, 193, 17, 68, 206, 175, 153, 228, 62, 200, 54, 175, 52, 181] 6 =
      [9, 67, 102, 235, 133, 252, 164, 76, 154, 186, 91, 11, 199, 227, 237, 46] := by
  decide

set_option maxHeartbeats 400000 in
/-- State after AES round 8 of this evaluation. -/
theorem zkJ0Round8 :
    Aes.aesRound wZk
      [9, 67, 102, 235, 133, 252, 164, 76, 154, 186, 91, 11, 199, 227, 237, 46] 7 =
      [95, 170, 31, 192, 78, 131, 132, 143, 179, 32, 87, 68, 22, 252, 81, 189] := by
  decide

set_option maxHeartbeats 400000 in
/-- State after AES round 9 of this evaluation. -/
theorem zkJ0Round9 :
    Aes.aesRound wZk
      [95, 170, 31, 192, 78, 131, 132, 143, 179, 32, 87, 68, 22, 252, 81, 189] 8 =
      [160, 170, 48, 214, 157, 69, 40, 247, 244, 130, 117, 148, 152, 69, 210, 18] := by
  decide

set_option maxHeartbeats 400000 in
/-- State after AES round 10 of this evaluation. -/
theorem zkJ0Round10 :
    Aes.aesRound wZk
      [160, 170, 48, 214, 157, 69, 40, 247, 244, 130, 117, 148, 152, 69, 210, 18] 9 =
      [89, 79, 18, 19, 110, 189, 173, 164, 238, 54, 18, 144, 237, 180, 245, 15] := by
  decide

set_option maxHeartbeats 400000 in
/-- State after AES round 11 of this evaluation. -/
theorem zkJ0Round11 :
    Aes.aesRound wZk
      [89, 79, 18, 19, 110, 189, 173, 164, 238, 54, 18, 144, 237, 180, 245, 15] 10 =
      [209, 178, 11, 18, 182, 175, 191, 39, 13, 234, 36, 159, 36, 243, 57, 1] := by
  decide

set_option maxHeartbeats 400000 in
/-- State after AES round 12 of this evaluation. -/
theorem zkJ0Round12 :
    Aes.aesRound wZk
      [209, 178, 11, 18, 182, 175, 191, 39, 13, 234, 36, 159, 36, 243, 57, 1] 11 =
      [90, 90, 71, 105, 150, 227, 213, 69, 83, 10, 200, 188, 104, 34, 125, 170] := by
  decide

set_option maxHeartbeats 400000 in
/-- State after AES round 13 of this evaluation. -/
theorem zkJ0Round13 :
    Aes.aesRound wZk
      [90, 90, 71, 105, 150, 227, 213, 69, 83, 10, 200, 188, 104, 34, 125, 170] 12 =
      [100, 254, 128, 194, 231, 38, 124, 255, 131, 20, 58, 215, 251, 98, 134, 131] := by
  decide

set_option maxHeartbeats 400000 in
/-- AES of the pre-counter block `J0` under the zero key. -/
theorem zkAesJ0 :
    aesBlock (List.replicate 32 0)
      (hexToBytes "00000000000000000000000000000001".data) =
      [83, 15, 138, 251, 199, 69, 54, 185, 169, 99, 180, 241, 196, 203, 115, 139] := by
  rw [aesBlock_rounds, zkExpandKey, zkJ0Whiten, range_thirteen]
  simp only [List.foldl_cons, List.foldl_nil]
  rw [zkJ0Round1, zkJ0Round2, zkJ0Round3, zkJ0Round4, zkJ0Round5, zkJ0Round6, zkJ0Round7, zkJ0Round8, zkJ0Round9, zkJ0Round10, zkJ0Round11, zkJ0Round12, zkJ0Round13]
  decide

set_option maxHeartbeats 400000 in
/-- Initial AddRoundKey whitening of this AES evaluation. -/
theorem zkC1Whiten :
    Aes.addRoundKey (hexToBytes "00000000000000000000000000000002".data) (Aes.roundKey wZk 0) =
      [0, 0, 0, 0, 0, 0, 0, 0, 0, 0, 0, 0, 0, 0, 0, 2] := by
  decide

set_option maxHeartbeats 400000 in
/-- State after AES round 1 of this evaluation. -/
theorem zkC1Round1 :
    Aes.aesRound wZk
      [0, 0, 0, 0, 0, 0, 0, 0, 0, 0, 0, 0, 0, 0, 0, 2] 0 =
      [119, 119, 95, 75, 99, 99, 99, 99, 99, 99, 99, 99, 99, 99, 99, 99] := by
  decide

set_option maxHeartbeats 400000 in
/-- State after AES round 2 of this evaluation. -/
theorem zkC1Round2 :
    Aes.aesRound wZk
      [119, 119, 95, 75, 99, 99, 99, 99, 99, 99, 99, 99, 99, 99, 99, 99] 1 =
      [133, 150, 150, 138, 209, 208, 64, 8, 173, 196, 240, 172, 139, 132, 150, 150] := by
  decide

set_option maxHeartbeats 400000 in
/-- State after AES round 3 of this evaluation. -/
theorem zkC1Round3 :
    Aes.aesRound wZk
      [133, 150, 150, 138, 209, 208, 64, 8, 173, 196, 240, 172, 139, 132, 150, 150] 2 =
      [19, 147, 180, 158, 28, 40, 96, 201, 218, 75, 90, 240, 227, 119, 236, 28] := by
  decide

set_option maxHeartbeats 400000 in
/-- State after AES round 4 of this evaluation. -/
theorem zkC1Round4 :
    Aes.aesRound wZk
      [19, 147, 180, 158, 28, 40, 96, 201, 218, 75, 90, 240, 227, 119, 236, 28] 3 =
      [235, 60, 253, 225, 37, 172, 186, 120, 149, 155, 179, 239, 12, 90, 246, 144] := by
  decide

set_option maxHeartbeats 400000 in
/-- State after AES round 5 of this evaluation. -/
theorem zkC1Round5 :
    Aes.aesRound wZk
      [235, 60, 253, 225, 37, 172, 186, 120, 149, 155, 179, 239, 12, 90, 246, 144] 4 =
      [17, 138, 143, 118, 47, 95, 202, 109, 24, 128, 110, 157, 61, 157, 234, 50] := by
  decide

set_option maxHeartbeats 400000 in
/-- State after AES round 6 of this evaluation. -/
theorem zkC1Round6 :
    Aes.aesRound wZk
      [17, 138, 143, 118, 47, 95, 202, 109, 24, 128, 110, 157, 61, 157, 234, 50] 5 =
      [186, 202, 224, 74, 135, 101, 103, 104, 221, 143, 223, 27, 218, 33, 210, 209] := by
  decide

set_option maxHeartbeats 400000 in
/-- State after AES round 7 of this evaluation. -/
theorem zkC1Round7 :
    Aes.aesRound wZk
      [186, 202, 224, 74, 135, 101, 103, 104, 221, 143, 223, 27, 218, 33, 210, 209] 6 =
      [18, 99, 93, 105, 153, 31, 131, 24, 29, 44, 80, 244, 243, 131, 212, 230] := by
  decide

set_option maxHeartbeats 400000 in
/-- State after AES round 8 of this evaluation. -/
theorem zkC1Round8 :
    Aes.aesRound wZk
      [18, 99, 93, 105, 153, 31, 131, 24, 29, 44, 80, 244, 243, 131, 212, 230] 7 =
      [145, 131, 169, 252, 37, 220, 114, 188, 108, 216, 223, 241, 146, 142, 141, 140] := by
  decide

set_option maxHeartbeats 400000 in
/-- State after AES round 9 of this evaluation. -/
theorem zkC1Round9 :
    Aes.aesRound wZk
      [145, 131, 169, 252, 37, 220, 114, 188, 108, 216, 223, 241, 146, 142, 141, 140] 8 =
      [89, 122, 167, 151, 90, 103, 243, 137, 107, 213, 253, 69, 237, 86, 113, 58] := by
  decide

set_option maxHeartbeats 400000 in
/-- State after AES round 10 of this evaluation. -/
theorem zkC1Round10 :
    Aes.aesRound wZk
      [89, 122, 167, 151, 90, 103, 243, 137, 107, 213, 253, 69, 237, 86, 113, 58] 9 =
      [169, 160, 128, 222, 237, 57, 243, 101, 152, 116, 247, 201, 36, 76, 54, 237] := by
  decide

set_option maxHeartbeats 400000 in
/-- State after AES round 11 of this evaluation. -/
theorem zkC1Round11 :
    Aes.aesRound wZk
      [169, 160, 128, 222, 237, 57, 243, 101, 152, 116, 247, 201, 36, 76, 54, 237] 10 =
      [219, 161, 71, 181, 24, 14, 159, 214, 38, 223, 234, 133, 107, 86, 201, 57] := by
  decide

set_option maxHeartbeats 400000 in
/-- State after AES round 12 of this evaluation. -/
theorem zkC1Round12 :
    Aes.aesRound wZk
      [219, 161, 71, 181, 24, 14, 159, 214, 38, 223, 234, 133, 107, 86, 201, 57] 11 =
      [253, 196, 217, 68, 179, 100, 142, 149, 125, 245, 23, 159, 106, 67, 88, 63] := by
  decide

set_option maxHeartbeats 400000 in
/-- State after AES round 13 of this evaluation. -/
theorem zkC1Round13 :
    Aes.aesRound wZk
      [253, 196, 217, 68, 179, 100, 142, 149, 125, 245, 23, 159, 106, 67, 88, 63] 12 =
      [156, 65, 120, 4, 233, 132, 12, 40, 246, 239, 92, 117, 44, 234, 142, 149] := by
  decide

set_option maxHeartbeats 400000 in
/-- AES of the first CTR counter block under the zero key. -/
theorem zkAesCtr1 :
    aesBlock (List.replicate 32 0)
      (hexToBytes "00000000000000000000000000000002".data) =
      [206, 167, 64, 61, 77, 96, 107, 110, 7, 78, 197, 211, 186, 243, 157, 24] := by
  rw [aesBlock_rounds, zkExpandKey, zkC1Whiten, range_thirteen]
  simp only [List.foldl_cons, List.foldl_nil]
  rw [zkC1Round1, zkC1Round2, zkC1Round3, zkC1Round4, zkC1Round5, zkC1Round6, zkC1Round7, zkC1Round8, zkC1Round9, zkC1Round10, zkC1Round11, zkC1Round12, zkC1Round13]
  decide

set_option maxHeartbeats 400000 in
/-- The pre-counter block for a 12-byte zero IV is `IV ++ 0x00000001`. -/
theorem j0Zero :
    Gcm.j0 (List.replicate 32 0) (List.replicate 12 0) =
      hexToBytes "00000000000000000000000000000001".data := by
  decide

set_option maxHeartbeats 400000 in
/-- The GHASH subkey of the zero key, as a 128-bit value. -/
theorem subkeyHZero :
    Gcm.subkeyH (List.replicate 32 0) = 293207715084841176535342243128575008903 := by
  show beVal (aesBlock (List.replicate 32 0) (List.replicate 16 0)) = _
  rw [zkAesZeroBlock]
  decide

set_option maxHeartbeats 400000 in
/-- Incrementing `J0` once gives the first CTR counter block. -/
theorem incAtJ0One :
    Gcm.incAt (hexToBytes "00000000000000000000000000000001".data) (0 + 1) =
      hexToBytes "00000000000000000000000000000002".data := by
  decide

set_option maxHeartbeats 400000 in
/-- The first 16 CTR keystream bytes under the zero key and `J0`; the second
counter block of the keystream window is discarded by `take` and never forced. -/
theorem keystreamZero16 :
    Gcm.keystream (List.replicate 32 0)
        (hexToBytes "00000000000000000000000000000001".data) 16 =
      hexToBytes "cea7403d4d606b6e074ec5d3baf39d18".data := by
  show ((aesBlock (List.replicate 32 0)
        (Gcm.incAt (hexToBytes "00000000000000000000000000000001".data) (0 + 1)) ::
      aesBlock (List.replicate 32 0)
        (Gcm.incAt (hexToBytes "00000000000000000000000000000001".data) (1 + 1)) ::
      []).flatten).take 16 =
    hexToBytes "cea7403d4d606b6e074ec5d3baf39d18".data
  rw [incAtJ0One, zkAesCtr1]
  decide

set_option maxHeartbeats 400000 in
/-- Known-answer test: NIST AES-256-GCM, zero key, 12-byte zero IV, empty
plaintext: the tag is the GHASH-free `AES_K(J0)` value, assembled from the
staged AES evaluations. -/
theorem gcmTag_nist_empty_vector :
    gcmTag (List.replicate 32 0) (List.replicate 12 0) [] =
      hexToBytes "530f8afbc74536b9a963b4f1c4cb738b".data := by
  show toBytesBE 16 (Gcm.ghash (Gcm.subkeyH (List.replicate 32 0))
      (Gcm.pad16 [] ++ toBytesBE 8 0 ++ toBytesBE 8 (8 * ([] : List Nat).length)) ^^^
      beVal (aesBlock (List.replicate 32 0)
        (Gcm.j0 (List.replicate 32 0) (List.replicate 12 0)))) = _
  rw [subkeyHZero, j0Zero, zkAesJ0]
  decide

set_option maxHeartbeats 400000 in
/-- Known-answer test: NIST AES-256-GCM, zero key, 12-byte zero IV, one zero
block of plaintext — the ciphertext block, assembled from the staged AES
evaluation of the first counter block. -/
theorem gcm_nist_block_vector :
    gcmEncryptBytes (List.replicate 32 0) (List.replicate 12 0) (List.replicate 16 0) =
      hexToBytes "cea7403d4d606b6e074ec5d3baf39d18".data := by
  show List.zipWith (fun a b => a ^^^ b) (List.replicate 16 0)
      (Gcm.keystream (List.replicate 32 0)
        (Gcm.j0 (List.replicate 32 0) (List.replicate 12 0))
        (List.replicate 16 0 : List Nat).length) = _
  rw [j0Zero]
  have hl : (List.replicate 16 0 : List Nat).length = 16 := rfl
  rw [hl, keystreamZero16]
  decide

set_option maxHeartbeats 400000 in
/-- Known-answer test: NIST AES-256-GCM, zero key, 12-byte zero IV, one zero
block of plaintext — the authentication tag over that ciphertext, assembled
from the staged AES evaluations. -/
theorem gcm_nist_block_tag_vector :
    gcmTag (List.replicate 32 0) (List.replicate 12 0)
        (hexToBytes "cea7403d4d606b6e074ec5d3baf39d18".data) =
      hexToBytes "d0d1c8a799996bf0265b98b5d48ab919".data := by
  show toBytesBE 16 (Gcm.ghash (Gcm.subkeyH (List.replicate 32 0))
      (Gcm.pad16 (hexToBytes "cea7403d4d606b6e074ec5d3baf39d18".data) ++ toBytesBE 8 0 ++
        toBytesBE 8 (8 * (hexToBytes "cea7403d4d606b6e074ec5d3baf39d18".data).length)) ^^^
      beVal (aesBlock (List.replicate 32 0)
        (Gcm.j0 (List.replicate 32 0) (List.replicate 12 0)))) = _
  rw [subkeyHZero, j0Zero, zkAesJ0]
  decide

/-! ## KeyVault (src/unnamed/part_004) -/

/-- `EncryptedData`: base64-rendered ciphertext, IV and auth tag. -/
structure EncryptedData where
  encrypted : Str
  iv : Str
  authTag : Str

structure KeyVault where
  masterKey : List Nat

/-- `KeyVault.parseKey` (part_004 lines 55–66): a 64-character string of hex
digits is decoded as hex, otherwise the string is decoded as base64 and must
give exactly 32 bytes. -/
def parseKey (key : Str) : Except Str (List Nat) :=
  if key.all isHexDigit ∧ key.length = 64 then .ok (hexToBytes key)
  else
    let base64 := nodeBase64Decode key
    if base64.length = 32 then .ok base64
    else .error "Master key must be 32 bytes as hex (64 chars) or base64 (44 chars)".data

/-- The `KeyVault` constructor (part_004 lines 31–50) on a string master key:
parse, then validate the length is exactly 32 bytes. -/
def mkKeyVaultOfString (key : Str) : Except Str KeyVault := do
  let mk ← parseKey key
  if mk.length ≠ 32 then
    .error ("Master key must be 32 bytes (256 bits), got ".data ++
      (toString mk.length).data ++ " bytes".data)
  else
    .ok ⟨mk⟩

/-- The `KeyVault` constructor on a `Buffer` master key: only the length
check applies. -/
def mkKeyVaultOfBuffer (mk : List Nat) : Except Str KeyVault :=
  if mk.length ≠ 32 then
    .error ("Master key must be 32 bytes (256 bits), got ".data ++
      (toString mk.length).data ++ " bytes".data)
  else
    .ok ⟨mk⟩

/-- `KeyVault.encrypt` (part_004 lines 71–90): AES-256-GCM under a fresh
16-byte IV (passed explicitly here); `cipher.update(plaintext, "utf8",
"base64")` yields the whole GCM ciphertext in base64 and `cipher.final(
"base64")` the empty remainder, mirrored by the appended empty encoding. -/
def kvEncrypt (kv : KeyVault) (plaintext : Str) (iv : List Nat) : EncryptedData :=
  let ct := gcmEncryptBytes kv.masterKey iv (utf8Encode plaintext)
  { encrypted := base64Encode ct ++ base64Encode []
    iv := base64Encode iv
    authTag := base64Encode (gcmTag kv.masterKey iv ct) }

/-- `KeyVault.decrypt` (part_004 lines 95–113): base64-decode the fields,
XOR the keystream back, and fail closed unless the recomputed tag matches
(`decipher.final()` throws on tag mismatch). -/
def kvDecrypt (kv : KeyVault) (e : EncryptedData) : Except Str Str :=
  let iv := nodeBase64Decode e.iv
  let authTag := nodeBase64Decode e.authTag
  let encrypted := nodeBase64Decode e.encrypted
  let decrypted := gcmDecryptBytes kv.masterKey iv encrypted
  if gcmTag kv.masterKey iv encrypted = authTag then .ok (utf8Decode decrypted)
  else .error "Unsupported state or unable to authenticate data".data

/-! ## RelayerClient (src/packages/core/src/relayer/client.ts)

The HTTP world `relay` observes is passed in as an `HttpOutcome`: either a
response (status, text body, and the result of `response.json()`, which can
itself reject) or a rejected `fetch` (network error or abort), carrying the
thrown `Error`'s message when the thrown value was an `Error`. -/

structure RelayJson where
  txHash : Option Str
  transactionHash : Option Str

inductive HttpOutcome where
  | response (status : Nat) (body : Str) (json : Except Str RelayJson)
  | failure (errMessage : Option Str)

structure RelayerResponse where
  success : Bool
  txHash : Option Str
  error : Option Str

/-- JS `a || b` on two possibly-undefined strings: `undefined` and `""` are
falsy. -/
def jsOrStr : Option Str → Option Str → Option Str
  | some s, b => if s = [] then b else some s
  | none, b => b

/-- The error string built for a non-2xx response. -/
def relayErrorText (status : Nat) (body : Str) : Str :=
  "Relayer error: ".data ++ (toString status).data ++ " - ".data ++ body

/-- `RelayerClient.relay` (client.ts lines 33–69): a non-ok response (ok
means status 200–299) yields a failure with the status and text body; an ok
response yields success with `result.txHash || result.transactionHash`; any
rejection (network failure, abort, or `response.json()` throwing) lands in
the `catch` and yields a failure with `error.message` or the fallback. -/
def relay : HttpOutcome → RelayerResponse
  | .failure msg => ⟨false, none, some (msg.getD "Unknown relayer error".data)⟩
  | .response status body json =>
    if 200 ≤ status ∧ status ≤ 299 then
      match json with
      | .ok result => ⟨true, jsOrStr result.txHash result.transactionHash, none⟩
      | .error e => ⟨false, none, some e⟩
    else ⟨false, none, some (relayErrorText status body)⟩


/-! ## Supporting lemmas -/

theorem b64CharStd_spec : ∀ k < 64,
    b64CharStd k ≠ '=' ∧ isB64Char (b64CharStd k) = true ∧ b64Val (b64CharStd k) = k := by
  decide

/-- Node's forgiving base64 decoder inverts the standard encoder on byte
lists. -/
theorem nodeBase64_roundtrip (bs : List Nat) (h : ∀ b ∈ bs, b < 256) :
    nodeBase64Decode (base64Encode bs) = bs := by
  induction bs using base64Encode.induct with
  | case1 b1 b2 b3 rest ih =>
    have h1 : b1 < 256 := h _ (by simp)
    have h2 : b2 < 256 := h _ (by simp)
    have h3 : b3 < 256 := h _ (by simp)
    have e1 := b64CharStd_spec (b1 / 4) (by omega)
    have e2 := b64CharStd_spec (b1 % 4 * 16 + b2 / 16) (by omega)
    have e3 := b64CharStd_spec (b2 % 16 * 4 + b3 / 64) (by omega)
    have e4 := b64CharStd_spec (b3 % 64) (by omega)
    have ih' := ih (fun b hb => h b (by simp [hb]))
    simp only [nodeBase64Decode, ne_eq, decide_not] at ih'
    simp [nodeBase64Decode, base64Encode, List.takeWhile_cons, List.filter_cons,
      e1.1, e2.1, e3.1, e4.1, e1.2.1, e2.2.1, e3.2.1, e4.2.1, b64DecodeChars,
      e1.2.2, e2.2.2, e3.2.2, e4.2.2]
    refine ⟨by omega, by omega, by omega, ih'⟩
  | case2 b1 b2 =>
    have h1 : b1 < 256 := h _ (by simp)
    have h2 : b2 < 256 := h _ (by simp)
    have e1 := b64CharStd_spec (b1 / 4) (by omega)
    have e2 := b64CharStd_spec (b1 % 4 * 16 + b2 / 16) (by omega)
    have e3 := b64CharStd_spec (b2 % 16 * 4) (by omega)
    simp [nodeBase64Decode, base64Encode, List.takeWhile_cons, List.filter_cons,
      e1.1, e2.1, e3.1, e1.2.1, e2.2.1, e3.2.1, b64DecodeChars,
      e1.2.2, e2.2.2, e3.2.2]
    refine ⟨by omega, by omega⟩
  | case3 b1 =>
    have h1 : b1 < 256 := h _ (by simp)
    have e1 := b64CharStd_spec (b1 / 4) (by omega)
    have e2 := b64CharStd_spec (b1 % 4 * 16) (by omega)
    simp [nodeBase64Decode, base64Encode, List.takeWhile_cons, List.filter_cons,
      e1.1, e2.1, e1.2.1, e2.2.1, b64DecodeChars, e1.2.2, e2.2.2]
    omega
  | case4 => decide

theorem char_toNat_lt (c : Char) : c.toNat < 0x110000 := by
  have := c.valid
  rcases this with h | h
  · exact Nat.lt_trans h (by norm_num)
  · exact h.2

theorem utf8DecodeAux_encodeChar (c : Char) (t : List Nat) (f : Nat) :
    utf8DecodeAux (f + 1) (utf8EncodeChar c ++ t) = c :: utf8DecodeAux f t := by
  have hv : c.toNat < 0x110000 := char_toNat_lt c
  by_cases h1 : c.toNat < 0x80
  · unfold utf8EncodeChar
    rw [if_pos h1]
    rw [List.cons_append, List.nil_append, utf8DecodeAux, if_pos h1, Char.ofNat_toNat]
  · by_cases h2 : c.toNat < 0x800
    · unfold utf8EncodeChar
      rw [if_neg h1, if_pos h2]
      have n1 : ¬(0xC0 + c.toNat / 64 < 0x80) := by omega
      have n2 : ¬(0xC0 + c.toNat / 64 < 0xC0) := by omega
      have n3 : 0xC0 + c.toNat / 64 < 0xE0 := by omega
      rw [List.cons_append, List.cons_append, List.nil_append, utf8DecodeAux,
        if_neg n1, if_neg n2, if_pos n3]
      have e : (0xC0 + c.toNat / 64 - 0xC0) * 64 +
          (((0x80 + c.toNat % 64) :: t).getD 0 0 - 0x80) = c.toNat := by
        simp [List.getD]; omega
      rw [e, Char.ofNat_toNat]
      simp
    · by_cases h3 : c.toNat < 0x10000
      · unfold utf8EncodeChar
        rw [if_neg h1, if_neg h2, if_pos h3]
        have n1 : ¬(0xE0 + c.toNat / 4096 < 0x80) := by omega
        have n2 : ¬(0xE0 + c.toNat / 4096 < 0xC0) := by omega
        have n3 : ¬(0xE0 + c.toNat / 4096 < 0xE0) := by omega
        have n4 : 0xE0 + c.toNat / 4096 < 0xF0 := by omega
        rw [List.cons_append, List.cons_append, List.cons_append, List.nil_append,
          utf8DecodeAux, if_neg n1, if_neg n2, if_neg n3, if_pos n4]
        have e : (0xE0 + c.toNat / 4096 - 0xE0) * 4096 +
            (((0x80 + c.toNat / 64 % 64) :: (0x80 + c.toNat % 64) :: t).getD 0 0 - 0x80) * 64 +
            (((0x80 + c.toNat / 64 % 64) :: (0x80 + c.toNat % 64) :: t).getD 1 0 - 0x80) =
            c.toNat := by
          simp [List.getD]; omega
        rw [e, Char.ofNat_toNat]
        simp
      · unfold utf8EncodeChar
        rw [if_neg h1, if_neg h2, if_neg h3]
        have n1 : ¬(0xF0 + c.toNat / 262144 < 0x80) := by omega
        have n2 : ¬(0xF0 + c.toNat / 262144 < 0xC0) := by omega
        have n3 : ¬(0xF0 + c.toNat / 262144 < 0xE0) := by omega
        have n4 : ¬(0xF0 + c.toNat / 262144 < 0xF0) := by omega
        rw [List.cons_append, List.cons_append, List.cons_append, List.cons_append,
          List.nil_append, utf8DecodeAux, if_neg n1, if_neg n2, if_neg n3, if_neg n4]
        have e : (0xF0 + c.toNat / 262144 - 0xF0) * 262144 +
            (((0x80 + c.toNat / 4096 % 64) :: (0x80 + c.toNat / 64 % 64) ::
              (0x80 + c.toNat % 64) :: t).getD 0 0 - 0x80) * 4096 +
            (((0x80 + c.toNat / 4096 % 64) :: (0x80 + c.toNat / 64 % 64) ::
              (0x80 + c.toNat % 64) :: t).getD 1 0 - 0x80) * 64 +
            (((0x80 + c.toNat / 4096 % 64) :: (0x80 + c.toNat / 64 % 64) ::
              (0x80 + c.toNat % 64) :: t).getD 2 0 - 0x80) = c.toNat := by
          simp [List.getD]; omega
        rw [e, Char.ofNat_toNat]
        simp

theorem utf8DecodeAux_nil (f : Nat) : utf8DecodeAux f [] = [] := by
  cases f <;> rw [utf8DecodeAux]

theorem utf8DecodeAux_encode_append (s : Str) (t : List Nat) (f : Nat) :
    utf8DecodeAux (s.length + f) (utf8Encode s ++ t) = s ++ utf8DecodeAux f t := by
  induction s generalizing f with
  | nil => simp [utf8Encode]
  | cons c cs ih =>
    have step : utf8Encode (c :: cs) = utf8EncodeChar c ++ utf8Encode cs := by
      simp [utf8Encode]
    rw [step, List.append_assoc]
    have : (c :: cs).length + f = (cs.length + f) + 1 := by simp; omega
    rw [this, utf8DecodeAux_encodeChar, ih]
    rfl

theorem utf8EncodeChar_length_pos (c : Char) : 1 ≤ (utf8EncodeChar c).length := by
  unfold utf8EncodeChar
  dsimp only
  split_ifs <;> simp

theorem utf8Encode_length_ge (s : Str) : s.length ≤ (utf8Encode s).length := by
  induction s with
  | nil => simp [utf8Encode]
  | cons c cs ih =>
    have step : utf8Encode (c :: cs) = utf8EncodeChar c ++ utf8Encode cs := by
      simp [utf8Encode]
    rw [step]
    simp only [List.length_append, List.length_cons]
    have := utf8EncodeChar_length_pos c
    omega

/-- UTF-8 decoding inverts UTF-8 encoding on strings. -/
theorem utf8_roundtrip (s : Str) : utf8Decode (utf8Encode s) = s := by
  unfold utf8Decode
  have hge := utf8Encode_length_ge s
  have e : (utf8Encode s).length = s.length + ((utf8Encode s).length - s.length) := by omega
  rw [e]
  have := utf8DecodeAux_encode_append s [] ((utf8Encode s).length - s.length)
  rw [List.append_nil] at this
  rw [this, utf8DecodeAux_nil, List.append_nil]

theorem toBytesBE_length (k n : Nat) : (toBytesBE k n).length = k := by
  induction k generalizing n with
  | zero => rfl
  | succ k ih => simp [toBytesBE, ih]

theorem toBytesBE_lt (k n : Nat) : ∀ b ∈ toBytesBE k n, b < 256 := by
  induction k generalizing n with
  | zero => simp [toBytesBE]
  | succ k ih =>
    intro b hb
    simp only [toBytesBE, List.mem_append, List.mem_singleton] at hb
    rcases hb with h | h
    · exact ih _ _ h
    · omega

theorem foldl_append_singleton_length {α β : Type} (l : List α) (g : List β → α → β)
    (init : List β) :
    (l.foldl (fun w j => w ++ [g w j]) init).length = init.length + l.length := by
  induction l generalizing init with
  | nil => simp
  | cons x xs ih => simp [ih]; omega

theorem expandKey_length (key : List Nat) : (Aes.expandKey key).length = 60 := by
  unfold Aes.expandKey
  rw [foldl_append_singleton_length]
  simp

theorem map_toBytesBE_flatten_length (ws : List Nat) :
    ((ws.map (toBytesBE 4)).flatten).length = 4 * ws.length := by
  induction ws with
  | nil => simp
  | cons w ws ih => simp [toBytesBE_length, ih]; omega

theorem roundKey_length (key : List Nat) (r : Nat) (hr : r ≤ 14) :
    (Aes.roundKey (Aes.expandKey key) r).length = 16 := by
  unfold Aes.roundKey
  rw [map_toBytesBE_flatten_length]
  have hw := expandKey_length key
  simp [hw]
  omega

theorem shiftRows_length (st : List Nat) : (Aes.shiftRows st).length = 16 := by
  simp [Aes.shiftRows]

/-- Every AES block output is 16 bytes. -/
theorem aesBlock_length (key block : List Nat) : (aesBlock key block).length = 16 := by
  unfold aesBlock Aes.addRoundKey
  rw [List.length_map, List.length_zipWith, shiftRows_length, roundKey_length key 14 (by omega)]
  rfl

theorem aesBlock_lt (key block : List Nat) : ∀ b ∈ aesBlock key block, b < 256 := by
  intro b hb
  unfold aesBlock at hb
  rw [List.mem_map] at hb
  obtain ⟨x, _, hx⟩ := hb
  omega

theorem flatten_map_aesBlock_length (key : List Nat) (g : Nat → List Nat) (k : Nat) :
    (((List.range k).map fun i => aesBlock key (g i)).flatten).length = 16 * k := by
  induction k with
  | zero => simp
  | succ k ih =>
    rw [List.range_succ, List.map_append, List.flatten_append]
    simp [ih, aesBlock_length]
    omega

theorem keystream_length (key j : List Nat) (n : Nat) :
    (Gcm.keystream key j n).length = n := by
  unfold Gcm.keystream
  rw [List.length_take, flatten_map_aesBlock_length]
  have : n ≤ 16 * (n / 16 + 1) := by omega
  omega

theorem keystream_lt (key j : List Nat) (n : Nat) : ∀ b ∈ Gcm.keystream key j n, b < 256 := by
  intro b hb
  unfold Gcm.keystream at hb
  have hb' := List.mem_of_mem_take hb
  rw [List.mem_flatten] at hb'
  obtain ⟨blk, hblk, hbin⟩ := hb'
  rw [List.mem_map] at hblk
  obtain ⟨i, _, hi⟩ := hblk
  exact aesBlock_lt _ _ b (hi ▸ hbin)

theorem zipWith_xor_cancel (pt ks : List Nat) (h : pt.length ≤ ks.length) :
    List.zipWith (fun a b => a ^^^ b) (List.zipWith (fun a b => a ^^^ b) pt ks) ks = pt := by
  induction pt generalizing ks with
  | nil => simp
  | cons p ps ih =>
    cases ks with
    | nil => simp at h
    | cons k kks =>
      simp only [List.zipWith_cons_cons, List.length_cons] at *
      rw [Nat.xor_assoc, Nat.xor_self, Nat.xor_zero]
      rw [ih kks (by omega)]

theorem zipWith_xor_lt (pt ks : List Nat) (hp : ∀ b ∈ pt, b < 256) (hk : ∀ b ∈ ks, b < 256) :
    ∀ b ∈ List.zipWith (fun a b => a ^^^ b) pt ks, b < 256 := by
  induction pt generalizing ks with
  | nil => simp
  | cons p ps ih =>
    cases ks with
    | nil => simp
    | cons k kks =>
      intro b hb
      simp only [List.zipWith_cons_cons, List.mem_cons] at hb
      rcases hb with h | h
      · subst h
        have h1 : p < 2 ^ 8 := hp p (by simp)
        have h2 : k < 2 ^ 8 := hk k (by simp)
        calc p ^^^ k < 2 ^ 8 := Nat.xor_lt_two_pow h1 h2
        _ = 256 := rfl
      · exact ih kks (fun x hx => hp x (by simp [hx])) (fun x hx => hk x (by simp [hx])) b h

theorem utf8EncodeChar_lt (c : Char) : ∀ b ∈ utf8EncodeChar c, b < 256 := by
  have hv : c.toNat < 0x110000 := char_toNat_lt c
  unfold utf8EncodeChar
  dsimp only
  split_ifs <;> intro b hb <;> simp at hb <;> omega

theorem utf8Encode_lt (s : Str) : ∀ b ∈ utf8Encode s, b < 256 := by
  intro b hb
  unfold utf8Encode at hb
  rw [List.mem_flatten] at hb
  obtain ⟨l, hl, hbin⟩ := hb
  rw [List.mem_map] at hl
  obtain ⟨c, _, hc⟩ := hl
  exact utf8EncodeChar_lt c b (hc ▸ hbin)

theorem hexToBytes_length (l : List Char) : (hexToBytes l).length = l.length / 2 := by
  induction l using hexToBytes.induct with
  | case1 c1 c2 rest ih => simp [hexToBytes, ih]; omega
  | case2 x h => cases x with
    | nil => rfl
    | cons c t =>
      cases t with
      | nil => simp [hexToBytes]
      | cons c2 t2 => exact absurd rfl (h c c2 t2)

theorem base64UrlEncode_length_mul3 (bs : List Nat) (h : bs.length % 3 = 0) :
    (base64UrlEncode bs).length = bs.length / 3 * 4 := by
  induction bs using base64UrlEncode.induct with
  | case1 b1 b2 b3 rest ih =>
    simp only [List.length_cons] at h ⊢
    rw [base64UrlEncode]
    simp only [List.length_cons]
    rw [ih (by omega)]
    omega
  | case2 b1 b2 => simp at h
  | case3 b1 => simp at h
  | case4 => rfl


/-! ### Stage-by-stage evaluation of the two derivation pipelines at the
concrete owner `0x1111111111111111111111111111111111111111`, under the
default factory and singleton. Each absorbed block and each CREATE2 digest
is a separate one-permutation keccak evaluation. -/

set_option maxHeartbeats 800000 in
/-- Block decomposition of the padded message hashed by `setupArgsHash_at_owner1`. -/
theorem saBlocks :
    Keccak.toBlocks (((Safe.abiEncodeSetupArgs 0x1111111111111111111111111111111111111111 ++ Keccak.keccakPad (Safe.abiEncodeSetupArgs 0x1111111111111111111111111111111111111111).length).length / 136 + 1))
      ((Safe.abiEncodeSetupArgs 0x1111111111111111111111111111111111111111) ++ Keccak.keccakPad (Safe.abiEncodeSetupArgs 0x1111111111111111111111111111111111111111).length) =
      [[0, 0, 0, 0, 0, 0, 0, 0, 0, 0, 0, 0, 0, 0, 0, 0, 0, 0, 0, 0, 0, 0, 0, 0, 0, 0, 0, 0, 0,
         0, 1, 0, 0, 0, 0, 0, 0, 0, 0, 0, 0, 0, 0, 0, 0, 0, 0, 0, 0, 0, 0, 0, 0, 0, 0, 0, 0, 0,
         0, 0, 0, 0, 0, 1, 0, 0, 0, 0, 0, 0, 0, 0, 0, 0, 0, 0, 0, 0, 0, 0, 0, 0, 0, 0, 0, 0, 0,
         0, 0, 0, 0, 0, 0, 0, 0, 0, 0, 0, 0, 0, 0, 0, 0, 0, 0, 0, 0, 0, 0, 0, 0, 0, 0, 0, 0, 0,
         0, 0, 0, 0, 0, 0, 0, 0, 0, 0, 1, 64, 0, 0, 0, 0, 0, 0, 0, 0],
       [0, 0, 0, 0, 0, 0, 0, 0, 0, 0, 0, 0, 0, 0, 0, 0, 0, 0, 0, 0, 0, 0, 0, 0, 0, 0, 0, 0, 0,
         0, 0, 0, 0, 0, 0, 0, 0, 0, 0, 0, 0, 0, 0, 0, 0, 0, 0, 0, 0, 0, 0, 0, 0, 0, 0, 0, 0, 0,
         0, 0, 0, 0, 0, 0, 0, 0, 0, 0, 0, 0, 0, 0, 0, 0, 0, 0, 0, 0, 0, 0, 0, 0, 0, 0, 0, 0, 0,
         0, 0, 0, 0, 0, 0, 0, 0, 0, 0, 0, 0, 0, 0, 0, 0, 0, 0, 0, 0, 0, 0, 0, 0, 0, 0, 0, 0, 0,
         0, 0, 0, 0, 0, 0, 0, 0, 0, 0, 0, 0, 0, 0, 0, 0, 0, 0, 0, 0],
       [0, 0, 0, 0, 0, 0, 0, 0, 0, 0, 0, 0, 0, 0, 0, 1, 0, 0, 0, 0, 0, 0, 0, 0, 0, 0, 0, 0, 17,
         17, 17, 17, 17, 17, 17, 17, 17, 17, 17, 17, 17, 17, 17, 17, 17, 17, 17, 17, 0, 0, 0, 0,
         0, 0, 0, 0, 0, 0, 0, 0, 0, 0, 0, 0, 0, 0, 0, 0, 0, 0, 0, 0, 0, 0, 0, 0, 0, 0, 0, 0, 1,
         0, 0, 0, 0, 0, 0, 0, 0, 0, 0, 0, 0, 0, 0, 0, 0, 0, 0, 0, 0, 0, 0, 0, 0, 0, 0, 0, 0, 0,
         0, 0, 0, 0, 0, 0, 0, 0, 0, 0, 0, 0, 0, 0, 0, 0, 0, 0, 0, 0, 0, 0, 0, 0, 0, 128]] := by
  decide

set_option maxHeartbeats 800000 in
/-- Sponge state after absorbing block 1 of 3. -/
theorem saAbsorb1 :
    Keccak.absorbBlock (List.replicate 25 0)
      [0, 0, 0, 0, 0, 0, 0, 0, 0, 0, 0, 0, 0, 0, 0, 0, 0, 0, 0, 0, 0, 0, 0, 0, 0, 0, 0, 0, 0, 0,
       1, 0, 0, 0, 0, 0, 0, 0, 0, 0, 0, 0, 0, 0, 0, 0, 0, 0, 0, 0, 0, 0, 0, 0, 0, 0, 0, 0, 0, 0,
       0, 0, 0, 1, 0, 0, 0, 0, 0, 0, 0, 0, 0, 0, 0, 0, 0, 0, 0, 0, 0, 0, 0, 0, 0, 0, 0, 0, 0, 0,
       0, 0, 0, 0, 0, 0, 0, 0, 0, 0, 0, 0, 0, 0, 0, 0, 0, 0, 0, 0, 0, 0, 0, 0, 0, 0, 0, 0, 0, 0,
       0, 0, 0, 0, 0, 0, 1, 64, 0, 0, 0, 0, 0, 0, 0, 0] =
      [3580616171724788552, 1851659505186429368, 8561016574229390829, 18426829070987092505,
       8399216951765019604, 13721802459142223168, 9610891083954997235, 4939591613678018346,
       16237645616385873999, 2869546163732167180, 12659728420766878107, 15397487209995818065,
       16842250476095888044, 6682428262420041932, 7870233341539878610, 1544691461592076552,
       464151442414844594, 16753475990240916140, 4469469619406938364, 8116627566944545089,
       13027052139819910615, 1849275082233533901, 17471980057146196988, 4977901964576765013,
       10988506603588569017] := by
  decide

set_option maxHeartbeats 800000 in
/-- Sponge state after absorbing block 2 of 3. -/
theorem saAbsorb2 :
    Keccak.absorbBlock ([3580616171724788552, 1851659505186429368, 8561016574229390829, 18426829070987092505,
       8399216951765019604, 13721802459142223168, 9610891083954997235, 4939591613678018346,
       16237645616385873999, 2869546163732167180, 12659728420766878107, 15397487209995818065,
       16842250476095888044, 6682428262420041932, 7870233341539878610, 1544691461592076552,
       464151442414844594, 16753475990240916140, 4469469619406938364, 8116627566944545089,
       13027052139819910615, 1849275082233533901, 17471980057146196988, 4977901964576765013,
       10988506603588569017])
      [0, 0, 0, 0, 0, 0, 0, 0, 0, 0, 0, 0, 0, 0, 0, 0, 0, 0, 0, 0, 0, 0, 0, 0, 0, 0, 0, 0, 0, 0,
       0, 0, 0, 0, 0, 0, 0, 0, 0, 0, 0, 0, 0, 0, 0, 0, 0, 0, 0, 0, 0, 0, 0, 0, 0, 0, 0, 0, 0, 0,
       0, 0, 0, 0, 0, 0, 0, 0, 0, 0, 0, 0, 0, 0, 0, 0, 0, 0, 0, 0, 0, 0, 0, 0, 0, 0, 0, 0, 0, 0,
       0, 0, 0, 0, 0, 0, 0, 0, 0, 0, 0, 0, 0, 0, 0, 0, 0, 0, 0, 0, 0, 0, 0, 0, 0, 0, 0, 0, 0, 0,
       0, 0, 0, 0, 0, 0, 0, 0, 0, 0, 0, 0, 0, 0, 0, 0] =
      [6356639299793962420, 3355871465350414921, 5772125789436242722, 6216670871093572080,
       4385530569324713334, 7881636236907424560, 15362706036108407630, 15202136269799106419,
       1516993569545497945, 7054472923047128081, 5452979319351258978, 17478314151057127780,
       9831473048884610143, 1238461605131234966, 11784071738938193173, 4744412729297194609,
       3099650434844503039, 1589879817928139936, 9994937120566491467, 4081226440709171166,
       11830358651311808095, 13512652836229716911, 13461013312154746096, 15329842737536384885,
       3064930909434226158] := by
  decide

set_option maxHeartbeats 800000 in
/-- Sponge state after absorbing block 3 of 3. -/
theorem saAbsorb3 :
    Keccak.absorbBlock ([6356639299793962420, 3355871465350414921, 5772125789436242722, 6216670871093572080,
       4385530569324713334, 7881636236907424560, 15362706036108407630, 15202136269799106419,
       1516993569545497945, 7054472923047128081, 5452979319351258978, 17478314151057127780,
       9831473048884610143, 1238461605131234966, 11784071738938193173, 4744412729297194609,
       3099650434844503039, 1589879817928139936, 9994937120566491467, 4081226440709171166,
       11830358651311808095, 13512652836229716911, 13461013312154746096, 15329842737536384885,
       3064930909434226158])
      [0, 0, 0, 0, 0, 0, 0, 0, 0, 0, 0, 0, 0, 0, 0, 1, 0, 0, 0, 0, 0, 0, 0, 0, 0, 0, 0, 0, 17,
       17, 17, 17, 17, 17, 17, 17, 17, 17, 17, 17, 17, 17, 17, 17, 17, 17, 17, 17, 0, 0, 0, 0,
       0, 0, 0, 0, 0, 0, 0, 0, 0, 0, 0, 0, 0, 0, 0, 0, 0, 0, 0, 0, 0, 0, 0, 0, 0, 0, 0, 0, 1, 0,
       0, 0, 0, 0, 0, 0, 0, 0, 0, 0, 0, 0, 0, 0, 0, 0, 0, 0, 0, 0, 0, 0, 0, 0, 0, 0, 0, 0, 0, 0,
       0, 0, 0, 0, 0, 0, 0, 0, 0, 0, 0, 0, 0, 0, 0, 0, 0, 0, 0, 0, 0, 0, 0, 128] =
      [4506488917225721698, 4166026100269355094, 7808195444225206034, 5410392890206315535,
       14491893013693931835, 5671679979319499148, 16696942283858611129, 14874595316813023637,
       7551799368479908081, 17727406035726565910, 16163971862393113409, 11656273942571748169,
       8064773219990273280, 6990384698458611597, 414732696031105337, 8438845559500750323,
       15018700423951590369, 17172788440581097344, 15619185772376382824, 7301780760712626889,
       4245830627071546632, 4549841303817171606, 16846974521825230948, 4903462836991502719,
       8904453616264675943] := by
  decide

set_option maxHeartbeats 400000 in
/-- keccak-256 of the bare ABI-encoded setup arguments at the concrete owner (the initializer data `predictSafeAddress` hashes), assembled block by block. -/
theorem setupArgsHash_at_owner1 :
    keccak256 (Safe.abiEncodeSetupArgs 0x1111111111111111111111111111111111111111) =
      hexToBytes "624f7937cb438a3e56908f67aab2d03912e7dd0d63485c6c0fe40b0cab93154b".data := by
  rw [keccak256_sponge, saBlocks]
  simp only [keccakAbsorb, List.foldl_cons, List.foldl_nil]
  rw [saAbsorb1, saAbsorb2, saAbsorb3]
  decide

set_option maxHeartbeats 800000 in
/-- Block decomposition of the padded message hashed by `setupDataHash_at_owner1`. -/
theorem sdBlocks :
    Keccak.toBlocks (((Safe.setupSelector ++ Safe.abiEncodeSetupArgs 0x1111111111111111111111111111111111111111 ++ Keccak.keccakPad (Safe.setupSelector ++ Safe.abiEncodeSetupArgs 0x1111111111111111111111111111111111111111).length).length / 136 + 1))
      ((Safe.setupSelector ++ Safe.abiEncodeSetupArgs 0x1111111111111111111111111111111111111111) ++ Keccak.keccakPad (Safe.setupSelector ++ Safe.abiEncodeSetupArgs 0x1111111111111111111111111111111111111111).length) =
      [[182, 62, 128, 13, 0, 0, 0, 0, 0, 0, 0, 0, 0, 0, 0, 0, 0, 0, 0, 0, 0, 0, 0, 0, 0, 0, 0,
         0, 0, 0, 0, 0, 0, 0, 1, 0, 0, 0, 0, 0, 0, 0, 0, 0, 0, 0, 0, 0, 0, 0, 0, 0, 0, 0, 0, 0,
         0, 0, 0, 0, 0, 0, 0, 0, 0, 0, 0, 1, 0, 0, 0, 0, 0, 0, 0, 0, 0, 0, 0, 0, 0, 0, 0, 0, 0,
         0, 0, 0, 0, 0, 0, 0, 0, 0, 0, 0, 0, 0, 0, 0, 0, 0, 0, 0, 0, 0, 0, 0, 0, 0, 0, 0, 0, 0,
         0, 0, 0, 0, 0, 0, 0, 0, 0, 0, 0, 0, 0, 0, 0, 0, 1, 64, 0, 0, 0, 0],
       [0, 0, 0, 0, 0, 0, 0, 0, 0, 0, 0, 0, 0, 0, 0, 0, 0, 0, 0, 0, 0, 0, 0, 0, 0, 0, 0, 0, 0,
         0, 0, 0, 0, 0, 0, 0, 0, 0, 0, 0, 0, 0, 0, 0, 0, 0, 0, 0, 0, 0, 0, 0, 0, 0, 0, 0, 0, 0,
         0, 0, 0, 0, 0, 0, 0, 0, 0, 0, 0, 0, 0, 0, 0, 0, 0, 0, 0, 0, 0, 0, 0, 0, 0, 0, 0, 0, 0,
         0, 0, 0, 0, 0, 0, 0, 0, 0, 0, 0, 0, 0, 0, 0, 0, 0, 0, 0, 0, 0, 0, 0, 0, 0, 0, 0, 0, 0,
         0, 0, 0, 0, 0, 0, 0, 0, 0, 0, 0, 0, 0, 0, 0, 0, 0, 0, 0, 0],
       [0, 0, 0, 0, 0, 0, 0, 0, 0, 0, 0, 0, 0, 0, 0, 0, 0, 0, 0, 1, 0, 0, 0, 0, 0, 0, 0, 0, 0,
         0, 0, 0, 17, 17, 17, 17, 17, 17, 17, 17, 17, 17, 17, 17, 17, 17, 17, 17, 17, 17, 17,
         17, 0, 0, 0, 0, 0, 0, 0, 0, 0, 0, 0, 0, 0, 0, 0, 0, 0, 0, 0, 0, 0, 0, 0, 0, 0, 0, 0, 0,
         0, 0, 0, 0, 1, 0, 0, 0, 0, 0, 0, 0, 0, 0, 0, 0, 0, 0, 0, 0, 0, 0, 0, 0, 0, 0, 0, 0, 0,
         0, 0, 0, 0, 0, 0, 0, 0, 0, 0, 0, 0, 0, 0, 0, 0, 0, 0, 0, 0, 0, 0, 0, 0, 0, 0, 128]] := by
  decide

set_option maxHeartbeats 800000 in
/-- Sponge state after absorbing block 1 of 3. -/
theorem sdAbsorb1 :
    Keccak.absorbBlock (List.replicate 25 0)
      [182, 62, 128, 13, 0, 0, 0, 0, 0, 0, 0, 0, 0, 0, 0, 0, 0, 0, 0, 0, 0, 0, 0, 0, 0, 0, 0, 0,
       0, 0, 0, 0, 0, 0, 1, 0, 0, 0, 0, 0, 0, 0, 0, 0, 0, 0, 0, 0, 0, 0, 0, 0, 0, 0, 0, 0, 0, 0,
       0, 0, 0, 0, 0, 0, 0, 0, 0, 1, 0, 0, 0, 0, 0, 0, 0, 0, 0, 0, 0, 0, 0, 0, 0, 0, 0, 0, 0, 0,
       0, 0, 0, 0, 0, 0, 0, 0, 0, 0, 0, 0, 0, 0, 0, 0, 0, 0, 0, 0, 0, 0, 0, 0, 0, 0, 0, 0, 0, 0,
       0, 0, 0, 0, 0, 0, 0, 0, 0, 0, 0, 0, 1, 64, 0, 0, 0, 0] =
      [7658248622407153923, 995776216324789297, 7845105479777577437, 2571216251015888922,
       18323335370595508162, 8112049189333886201, 3740500352088532320, 6214146175191418788,
       15875681629516237262, 4833778821569357514, 10380752514237047051, 5715329621597457067,
       1457629006897855904, 4634614321236057877, 8843784302847964230, 3734267861857248567,
       10623939731644745373, 3162738201457694722, 11429322707999591500, 18169743869459414143,
       15630293700262150044, 7487332176557676370, 6775969854134695443, 6317559959773622582,
       18158739832658278016] := by
  decide

set_option maxHeartbeats 800000 in
/-- Sponge state after absorbing block 2 of 3. -/
theorem sdAbsorb2 :
    Keccak.absorbBlock ([7658248622407153923, 995776216324789297, 7845105479777577437, 2571216251015888922,
       18323335370595508162, 8112049189333886201, 3740500352088532320, 6214146175191418788,
       15875681629516237262, 4833778821569357514, 10380752514237047051, 5715329621597457067,
       1457629006897855904, 4634614321236057877, 8843784302847964230, 3734267861857248567,
       10623939731644745373, 3162738201457694722, 11429322707999591500, 18169743869459414143,
       15630293700262150044, 7487332176557676370, 6775969854134695443, 6317559959773622582,
       18158739832658278016])
      [0, 0, 0, 0, 0, 0, 0, 0, 0, 0, 0, 0, 0, 0, 0, 0, 0, 0, 0, 0, 0, 0, 0, 0, 0, 0, 0, 0, 0, 0,
       0, 0, 0, 0, 0, 0, 0, 0, 0, 0, 0, 0, 0, 0, 0, 0, 0, 0, 0, 0, 0, 0, 0, 0, 0, 0, 0, 0, 0, 0,
       0, 0, 0, 0, 0, 0, 0, 0, 0, 0, 0, 0, 0, 0, 0, 0, 0, 0, 0, 0, 0, 0, 0, 0, 0, 0, 0, 0, 0, 0,
       0, 0, 0, 0, 0, 0, 0, 0, 0, 0, 0, 0, 0, 0, 0, 0, 0, 0, 0, 0, 0, 0, 0, 0, 0, 0, 0, 0, 0, 0,
       0, 0, 0, 0, 0, 0, 0, 0, 0, 0, 0, 0, 0, 0, 0, 0] =
      [17005495123252896162, 9502807628407553433, 6909824709498747305, 7211205075904484890,
       6944046012623408313, 15038425041424759225, 11688402699741638878, 10085694484117441870,
       14477855129259030703, 5565565269236700826, 15374601377930606514, 3505502272026757881,
       2671271081594638337, 6658582157244471853, 9537561629039276929, 1031001454996964109,
       5822559559689891499, 16195011627573427038, 16151410604524536375, 7155499812299319278,
       8541280670158466147, 17180095982392315223, 18302173060426411153, 15173081525024251,
       8769966638144044792] := by
  decide

set_option maxHeartbeats 800000 in
/-- Sponge state after absorbing block 3 of 3. -/
theorem sdAbsorb3 :
    Keccak.absorbBlock ([17005495123252896162, 9502807628407553433, 6909824709498747305, 7211205075904484890,
       6944046012623408313, 15038425041424759225, 11688402699741638878, 10085694484117441870,
       14477855129259030703, 5565565269236700826, 15374601377930606514, 3505502272026757881,
       2671271081594638337, 6658582157244471853, 9537561629039276929, 1031001454996964109,
       5822559559689891499, 16195011627573427038, 16151410604524536375, 7155499812299319278,
       8541280670158466147, 17180095982392315223, 18302173060426411153, 15173081525024251,
       8769966638144044792])
      [0, 0, 0, 0, 0, 0, 0, 0, 0, 0, 0, 0, 0, 0, 0, 0, 0, 0, 0, 1, 0, 0, 0, 0, 0, 0, 0, 0, 0, 0,
       0, 0, 17, 17, 17, 17, 17, 17, 17, 17, 17, 17, 17, 17, 17, 17, 17, 17, 17, 17, 17, 17, 0,
       0, 0, 0, 0, 0, 0, 0, 0, 0, 0, 0, 0, 0, 0, 0, 0, 0, 0, 0, 0, 0, 0, 0, 0, 0, 0, 0, 0, 0, 0,
       0, 1, 0, 0, 0, 0, 0, 0, 0, 0, 0, 0, 0, 0, 0, 0, 0, 0, 0, 0, 0, 0, 0, 0, 0, 0, 0, 0, 0, 0,
       0, 0, 0, 0, 0, 0, 0, 0, 0, 0, 0, 0, 0, 0, 0, 0, 0, 0, 0, 0, 0, 0, 128] =
      [11201749724977179289, 316946638715996976, 571551422244090220, 12480652749617518095,
       5825075265210843355, 10960310049069914391, 13053023421322692465, 4047321913510246651,
       10863644945326957292, 2304664886275441487, 12103730059004020358, 9299866381078714240,
       813740147747290014, 15589411167279432713, 11172409612776918510, 10977627986032841263,
       13535328694992368255, 11493104439974746642, 8567819364136724081, 8412274108628880724,
       11702458937930708242, 4850784120830650031, 1313743174267322305, 5906969658517710098,
       5872442555866652892] := by
  decide

set_option maxHeartbeats 400000 in
/-- keccak-256 of the selector-prefixed setup calldata at the concrete owner (the setup data `calculateSafeAddress` hashes), assembled block by block. -/
theorem setupDataHash_at_owner1 :
    keccak256 (Safe.setupSelector ++ Safe.abiEncodeSetupArgs 0x1111111111111111111111111111111111111111) =
      hexToBytes "992a1884069c749b30cb6be5490566046c71ba85fd8eee070f56f4e98c2f34ad".data := by
  rw [keccak256_sponge, sdBlocks]
  simp only [keccakAbsorb, List.foldl_cons, List.foldl_nil]
  rw [sdAbsorb1, sdAbsorb2, sdAbsorb3]
  decide

set_option maxHeartbeats 800000 in
/-- Block decomposition of the padded message hashed by `initCodeHash_default`. -/
theorem icBlocks :
    Keccak.toBlocks (((Safe.solidityPackBytesUint256 (hexToBytes Safe.proxyCreationCodeHex) Safe.defaultSingleton ++ Keccak.keccakPad (Safe.solidityPackBytesUint256 (hexToBytes Safe.proxyCreationCodeHex) Safe.defaultSingleton).length).length / 136 + 1))
      ((Safe.solidityPackBytesUint256 (hexToBytes Safe.proxyCreationCodeHex) Safe.defaultSingleton) ++ Keccak.keccakPad (Safe.solidityPackBytesUint256 (hexToBytes Safe.proxyCreationCodeHex) Safe.defaultSingleton).length) =
      [[96, 128, 96, 64, 82, 52, 128, 21, 97, 0, 16, 87, 96, 0, 128, 253, 91, 80, 96, 64, 81,
         97, 1, 230, 56, 3, 128, 97, 1, 230, 131, 57, 129, 129, 1, 96, 64, 82, 96, 32, 129, 16,
         21, 97, 0, 51, 87, 96, 0, 128, 253, 91, 129, 1, 144, 128, 128, 81, 144, 96, 32, 1, 144,
         146, 145, 144, 80, 80, 80, 96, 0, 115, 255, 255, 255, 255, 255, 255, 255, 255, 255,
         255, 255, 255, 255, 255, 255, 255, 255, 255, 255, 255, 22, 129, 115, 255, 255, 255,
         255, 255, 255, 255, 255, 255, 255, 255, 255, 255, 255, 255, 255, 255, 255, 255, 255,
         22, 20, 21, 97, 0, 202, 87, 96, 64, 81, 127, 8, 195, 121, 160, 0, 0, 0, 0, 0, 0],
       [0, 0, 0, 0, 0, 0, 0, 0, 0, 0, 0, 0, 0, 0, 0, 0, 0, 0, 0, 0, 0, 0, 129, 82, 96, 4, 1,
         128, 128, 96, 32, 1, 130, 129, 3, 130, 82, 96, 34, 129, 82, 96, 32, 1, 128, 97, 1, 196,
         96, 34, 145, 57, 96, 64, 1, 145, 80, 80, 96, 64, 81, 128, 145, 3, 144, 253, 91, 128,
         96, 0, 128, 97, 1, 0, 10, 129, 84, 129, 115, 255, 255, 255, 255, 255, 255, 255, 255,
         255, 255, 255, 255, 255, 255, 255, 255, 255, 255, 255, 255, 2, 25, 22, 144, 131, 115,
         255, 255, 255, 255, 255, 255, 255, 255, 255, 255, 255, 255, 255, 255, 255, 255, 255,
         255, 255, 255, 22, 2, 23, 144, 85, 80, 80, 96, 171, 128, 97],
       [1, 25, 96, 0, 57, 96, 0, 243, 254, 96, 128, 96, 64, 82, 115, 255, 255, 255, 255, 255,
         255, 255, 255, 255, 255, 255, 255, 255, 255, 255, 255, 255, 255, 255, 255, 96, 0, 84,
         22, 127, 166, 25, 72, 110, 0, 0, 0, 0, 0, 0, 0, 0, 0, 0, 0, 0, 0, 0, 0, 0, 0, 0, 0, 0,
         0, 0, 0, 0, 0, 0, 0, 0, 96, 0, 53, 20, 21, 96, 80, 87, 128, 96, 0, 82, 96, 32, 96, 0,
         243, 91, 54, 96, 0, 128, 55, 96, 0, 128, 54, 96, 0, 132, 90, 244, 61, 96, 0, 128, 62,
         96, 0, 129, 20, 21, 96, 112, 87, 61, 96, 0, 253, 91, 61, 96, 0, 243, 254, 162, 100,
         105, 112, 102, 115, 88, 34, 18],
       [32, 3, 209, 72, 142, 230, 94, 8, 250, 65, 229, 142, 136, 138, 152, 101, 85, 76, 83, 95,
         44, 119, 18, 106, 130, 203, 76, 15, 145, 127, 49, 68, 19, 100, 115, 111, 108, 99, 67,
         0, 7, 6, 0, 51, 73, 110, 118, 97, 108, 105, 100, 32, 115, 105, 110, 103, 108, 101, 116,
         111, 110, 32, 97, 100, 100, 114, 101, 115, 115, 32, 112, 114, 111, 118, 105, 100, 101,
         100, 0, 0, 0, 0, 0, 0, 0, 0, 0, 0, 0, 0, 105, 244, 209, 120, 142, 57, 200, 120, 147,
         201, 128, 192, 110, 223, 75, 127, 104, 110, 41, 56, 1, 0, 0, 0, 0, 0, 0, 0, 0, 0, 0, 0,
         0, 0, 0, 0, 0, 0, 0, 0, 0, 0, 0, 0, 0, 128]] := by
  decide

set_option maxHeartbeats 800000 in
/-- Sponge state after absorbing block 1 of 4. -/
theorem icAbsorb1 :
    Keccak.absorbBlock (List.replicate 25 0)
      [96, 128, 96, 64, 82, 52, 128, 21, 97, 0, 16, 87, 96, 0, 128, 253, 91, 80, 96, 64, 81, 97,
       1, 230, 56, 3, 128, 97, 1, 230, 131, 57, 129, 129, 1, 96, 64, 82, 96, 32, 129, 16, 21,
       97, 0, 51, 87, 96, 0, 128, 253, 91, 129, 1, 144, 128, 128, 81, 144, 96, 32, 1, 144, 146,
       145, 144, 80, 80, 80, 96, 0, 115, 255, 255, 255, 255, 255, 255, 255, 255, 255, 255, 255,
       255, 255, 255, 255, 255, 255, 255, 255, 255, 22, 129, 115, 255, 255, 255, 255, 255, 255,
       255, 255, 255, 255, 255, 255, 255, 255, 255, 255, 255, 255, 255, 255, 22, 20, 21, 97, 0,
       202, 87, 96, 64, 81, 127, 8, 195, 121, 160, 0, 0, 0, 0, 0, 0] =
      [1314543681729734606, 1030244686719256835, 14197882256007432975, 7837233982310612376,
       4580396881913554842, 1766598424686593713, 11895906854445606121, 7239940382236311234,
       11975861859076631132, 15990422779373687360, 2575817840701745657, 16218024797691833231,
       14181222867394943436, 15515209205173282421, 11906522162326337152, 14569297273429474305,
       14487870431950916843, 10166157631581154443, 2468961429073840122, 8429282958941688985,
       14737632237585930459, 16240003993960490126, 6890793897092133602, 6025487796071538673,
       17353041293874888457] := by
  decide

set_option maxHeartbeats 800000 in
/-- Sponge state after absorbing block 2 of 4. -/
theorem icAbsorb2 :
    Keccak.absorbBlock ([1314543681729734606, 1030244686719256835, 14197882256007432975, 7837233982310612376,
       4580396881913554842, 1766598424686593713, 11895906854445606121, 7239940382236311234,
       11975861859076631132, 15990422779373687360, 2575817840701745657, 16218024797691833231,
       14181222867394943436, 15515209205173282421, 11906522162326337152, 14569297273429474305,
       14487870431950916843, 10166157631581154443, 2468961429073840122, 8429282958941688985,
       14737632237585930459, 16240003993960490126, 6890793897092133602, 6025487796071538673,
       17353041293874888457])
      [0, 0, 0, 0, 0, 0, 0, 0, 0, 0, 0, 0, 0, 0, 0, 0, 0, 0, 0, 0, 0, 0, 129, 82, 96, 4, 1, 128,
       128, 96, 32, 1, 130, 129, 3, 130, 82, 96, 34, 129, 82, 96, 32, 1, 128, 97, 1, 196, 96,
       34, 145, 57, 96, 64, 1, 145, 80, 80, 96, 64, 81, 128, 145, 3, 144, 253, 91, 128, 96, 0,
       128, 97, 1, 0, 10, 129, 84, 129, 115, 255, 255, 255, 255, 255, 255, 255, 255, 255, 255,
       255, 255, 255, 255, 255, 255, 255, 255, 255, 255, 2, 25, 22, 144, 131, 115, 255, 255,
       255, 255, 255, 255, 255, 255, 255, 255, 255, 255, 255, 255, 255, 255, 255, 255, 255, 255,
       22, 2, 23, 144, 85, 80, 80, 96, 171, 128, 97] =
      [7496739077582919538, 549709268360983593, 16920597531587989143, 18395457074872390319,
       2983319064287164100, 17765866837733175982, 14265021928774920070, 11631911938215585080,
       4254179767010409817, 3813767898096284137, 13627014956024938457, 17150309107826071525,
       8225380239445961386, 11426509256889505221, 14060028363628573365, 8312578160363283865,
       12532881336893254679, 7847301502941094253, 15830970114431935922, 218212075611402133,
       11149847543321945556, 5399880373271028568, 16220482746054008831, 15061684186162050141,
       4300737075138032103] := by
  decide

set_option maxHeartbeats 800000 in
/-- Sponge state after absorbing block 3 of 4. -/
theorem icAbsorb3 :
    Keccak.absorbBlock ([7496739077582919538, 549709268360983593, 16920597531587989143, 18395457074872390319,
       2983319064287164100, 17765866837733175982, 14265021928774920070, 11631911938215585080,
       4254179767010409817, 3813767898096284137, 13627014956024938457, 17150309107826071525,
       8225380239445961386, 11426509256889505221, 14060028363628573365, 8312578160363283865,
       12532881336893254679, 7847301502941094253, 15830970114431935922, 218212075611402133,
       11149847543321945556, 5399880373271028568, 16220482746054008831, 15061684186162050141,
       4300737075138032103])
      [1, 25, 96, 0, 57, 96, 0, 243, 254, 96, 128, 96, 64, 82, 115, 255, 255, 255, 255, 255,
       255, 255, 255, 255, 255, 255, 255, 255, 255, 255, 255, 255, 255, 255, 255, 96, 0, 84, 22,
       127, 166, 25, 72, 110, 0, 0, 0, 0, 0, 0, 0, 0, 0, 0, 0, 0, 0, 0, 0, 0, 0, 0, 0, 0, 0, 0,
       0, 0, 0, 0, 0, 0, 96, 0, 53, 20, 21, 96, 80, 87, 128, 96, 0, 82, 96, 32, 96, 0, 243, 91,
       54, 96, 0, 128, 55, 96, 0, 128, 54, 96, 0, 132, 90, 244, 61, 96, 0, 128, 62, 96, 0, 129,
       20, 21, 96, 112, 87, 61, 96, 0, 253, 91, 61, 96, 0, 243, 254, 162, 100, 105, 112, 102,
       115, 88, 34, 18] =
      [10059136767765346097, 18270323069915121574, 17814104044938614691, 10025458870953544423,
       1988449703216916741, 286971505274679974, 17222248905884401792, 12589767542367708213,
       9947305463168596494, 13381240552067110764, 255219097446512368, 6655529521463187397,
       14015715644177066685, 11632182061223463856, 18290321997138773483, 2587774684147776846,
       6373559910306579492, 6738399855507301331, 16857188299617590696, 18202758394555974427,
       2748918421437112930, 11169181528949946460, 1596296384368267862, 8756325604480584082,
       3264215382340089235] := by
  decide

set_option maxHeartbeats 800000 in
/-- Sponge state after absorbing block 4 of 4. -/
theorem icAbsorb4 :
    Keccak.absorbBlock ([10059136767765346097, 18270323069915121574, 17814104044938614691, 10025458870953544423,
       1988449703216916741, 286971505274679974, 17222248905884401792, 12589767542367708213,
       9947305463168596494, 13381240552067110764, 255219097446512368, 6655529521463187397,
       14015715644177066685, 11632182061223463856, 18290321997138773483, 2587774684147776846,
       6373559910306579492, 6738399855507301331, 16857188299617590696, 18202758394555974427,
       2748918421437112930, 11169181528949946460, 1596296384368267862, 8756325604480584082,
       3264215382340089235])
      [32, 3, 209, 72, 142, 230, 94, 8, 250, 65, 229, 142, 136, 138, 152, 101, 85, 76, 83, 95,
       44, 119, 18, 106, 130, 203, 76, 15, 145, 127, 49, 68, 19, 100, 115, 111, 108, 99, 67, 0,
       7, 6, 0, 51, 73, 110, 118, 97, 108, 105, 100, 32, 115, 105, 110, 103, 108, 101, 116, 111,
       110, 32, 97, 100, 100, 114, 101, 115, 115, 32, 112, 114, 111, 118, 105, 100, 101, 100, 0,
       0, 0, 0, 0, 0, 0, 0, 0, 0, 0, 0, 105, 244, 209, 120, 142, 57, 200, 120, 147, 201, 128,
       192, 110, 223, 75, 127, 104, 110, 41, 56, 1, 0, 0, 0, 0, 0, 0, 0, 0, 0, 0, 0, 0, 0, 0, 0,
       0, 0, 0, 0, 0, 0, 0, 0, 0, 128] =
      [2710187343959059651, 12644208371834761875, 2936660996541335819, 7760190914829090372,
       4627012572231827890, 4093786186061574, 13035953749778677062, 2570917141933749974,
       8077323634483927071, 12524656489927227627, 3119010440273491785, 5886426077979017696,
       5368686554915461192, 15379037882348342233, 3511654623219881666, 3354272326333887439,
       2387416501280118128, 2013632741357240667, 10169270355895837391, 10208599809909013374,
       1629764674624861347, 9069567709467378882, 10839156471742783714, 18219357586590624078,
       17813458328928059408] := by
  decide

set_option maxHeartbeats 400000 in
/-- keccak-256 of the proxy creation bytecode with the default singleton appended (the shared init-code hash), assembled block by block. -/
theorem initCodeHash_default :
    keccak256 (Safe.solidityPackBytesUint256 (hexToBytes Safe.proxyCreationCodeHex) Safe.defaultSingleton) =
      hexToBytes "c36c70b707859c2593323bb5854079af0b4997049e1dc12844fe999385bcb16b".data := by
  rw [keccak256_sponge, icBlocks]
  simp only [keccakAbsorb, List.foldl_cons, List.foldl_nil]
  rw [icAbsorb1, icAbsorb2, icAbsorb3, icAbsorb4]
  decide

set_option maxHeartbeats 800000 in
/-- The salt `predictSafeAddress` derives at the concrete owner. -/
theorem predictSalt_at_owner1 :
    keccak256 (Safe.solidityPackBytes32Uint256
        (hexToBytes "624f7937cb438a3e56908f67aab2d03912e7dd0d63485c6c0fe40b0cab93154b".data) 0) =
      hexToBytes "4874c3fd2ffe3966d1236cb13a230c64ecbaa3faa55f208caa2677eec1b797f4".data := by
  decide

set_option maxHeartbeats 800000 in
/-- The salt `calculateSafeAddress` derives at the concrete owner. -/
theorem calculateSalt_at_owner1 :
    keccak256 (Safe.solidityPackBytes32Uint256
        (hexToBytes "992a1884069c749b30cb6be5490566046c71ba85fd8eee070f56f4e98c2f34ad".data) 0) =
      hexToBytes "8ca073727abaa6a8381d30eeae10ff8994c9647b8f39fdb8ce7086b4875f417d".data := by
  decide

set_option maxHeartbeats 800000 in
/-- keccak-256 of the CREATE2 preimage for `predictSafeAddress`'s salt. -/
theorem predictDigest_at_owner1 :
    keccak256 (0xff :: (toBytesBE 20 Safe.defaultProxyFactory ++
        hexToBytes "4874c3fd2ffe3966d1236cb13a230c64ecbaa3faa55f208caa2677eec1b797f4".data ++
        hexToBytes "c36c70b707859c2593323bb5854079af0b4997049e1dc12844fe999385bcb16b".data)) =
      hexToBytes "19c5ea797724b81cfedfdccec6bab8c54dba1b1340a11644fc08c8fe5e586699".data := by
  decide

set_option maxHeartbeats 800000 in
/-- The checksummed CREATE2 address from `predictSafeAddress`'s salt. -/
theorem predictAddress_at_owner1 :
    Safe.getCreate2Address Safe.defaultProxyFactory
        (hexToBytes "4874c3fd2ffe3966d1236cb13a230c64ecbaa3faa55f208caa2677eec1b797f4".data)
        (hexToBytes "c36c70b707859c2593323bb5854079af0b4997049e1dc12844fe999385bcb16b".data) =
      "0xC6bAb8C54dba1b1340A11644fC08c8fe5e586699".data := by
  show Safe.checksumAddress ((keccak256 (0xff :: (toBytesBE 20 Safe.defaultProxyFactory ++
      hexToBytes "4874c3fd2ffe3966d1236cb13a230c64ecbaa3faa55f208caa2677eec1b797f4".data ++
      hexToBytes "c36c70b707859c2593323bb5854079af0b4997049e1dc12844fe999385bcb16b".data))).drop 12) = _
  rw [predictDigest_at_owner1]
  decide

set_option maxHeartbeats 800000 in
/-- keccak-256 of the CREATE2 preimage for `calculateSafeAddress`'s salt. -/
theorem calculateDigest_at_owner1 :
    keccak256 (0xff :: (toBytesBE 20 Safe.defaultProxyFactory ++
        hexToBytes "8ca073727abaa6a8381d30eeae10ff8994c9647b8f39fdb8ce7086b4875f417d".data ++
        hexToBytes "c36c70b707859c2593323bb5854079af0b4997049e1dc12844fe999385bcb16b".data)) =
      hexToBytes "8ea8c85ab12cb8bc60505f37c253ee2012316a09d9ee45c3effa35ee3b32715c".data := by
  decide

set_option maxHeartbeats 800000 in
/-- The checksummed CREATE2 address from `calculateSafeAddress`'s salt. -/
theorem calculateAddress_at_owner1 :
    Safe.getCreate2Address Safe.defaultProxyFactory
        (hexToBytes "8ca073727abaa6a8381d30eeae10ff8994c9647b8f39fdb8ce7086b4875f417d".data)
        (hexToBytes "c36c70b707859c2593323bb5854079af0b4997049e1dc12844fe999385bcb16b".data) =
      "0xc253Ee2012316A09D9ee45C3EFfA35eE3b32715c".data := by
  show Safe.checksumAddress ((keccak256 (0xff :: (toBytesBE 20 Safe.defaultProxyFactory ++
      hexToBytes "8ca073727abaa6a8381d30eeae10ff8994c9647b8f39fdb8ce7086b4875f417d".data ++
      hexToBytes "c36c70b707859c2593323bb5854079af0b4997049e1dc12844fe999385bcb16b".data))).drop 12) = _
  rw [calculateDigest_at_owner1]
  decide

/-- `predictSafeAddress` under the defaults, fully evaluated at the concrete
owner by chaining the stage evaluations. -/
theorem predictSafeAddressDefaults_at_owner1 :
    Safe.predictSafeAddressDefaults 0x1111111111111111111111111111111111111111 =
      "0xC6bAb8C54dba1b1340A11644fC08c8fe5e586699".data := by
  show Safe.getCreate2Address Safe.defaultProxyFactory
      (keccak256 (Safe.solidityPackBytes32Uint256
        (keccak256 (Safe.abiEncodeSetupArgs 0x1111111111111111111111111111111111111111)) 0))
      (keccak256 (Safe.solidityPackBytesUint256 (hexToBytes Safe.proxyCreationCodeHex)
        Safe.defaultSingleton)) =
    "0xC6bAb8C54dba1b1340A11644fC08c8fe5e586699".data
  rw [setupArgsHash_at_owner1, predictSalt_at_owner1, initCodeHash_default,
    predictAddress_at_owner1]

/-- `calculateSafeAddress` under the defaults, fully evaluated at the
concrete owner by chaining the stage evaluations. -/
theorem calculateSafeAddressDefaults_at_owner1 :
    Safe.calculateSafeAddressDefaults 0x1111111111111111111111111111111111111111 =
      "0xc253Ee2012316A09D9ee45C3EFfA35eE3b32715c".data := by
  show Safe.getCreate2Address Safe.defaultProxyFactory
      (keccak256 (Safe.solidityPackBytes32Uint256
        (keccak256 (Safe.setupSelector ++
          Safe.abiEncodeSetupArgs 0x1111111111111111111111111111111111111111)) 0))
      (keccak256 (Safe.solidityPackBytesUint256 (hexToBytes Safe.proxyBytecodeHex)
        Safe.defaultSingleton)) =
    "0xc253Ee2012316A09D9ee45C3EFfA35eE3b32715c".data
  rw [setupDataHash_at_owner1, calculateSalt_at_owner1, ← Safe.proxyBytecode_literals_agree,
    initCodeHash_default, calculateAddress_at_owner1]

/-! ## The claims -/

/-- C1 (amended): the two address-derivation routines do not agree. Both run
the identical CREATE2 pipeline over the same factory, singleton, proxy
bytecode and salt formula, but `calculateSafeAddress` hashes the setup
calldata with its 4-byte `setup` selector while `predictSafeAddress` hashes
the bare ABI-encoded setup arguments, so their outputs differ. -/
theorem C1_theorem (owner factory singleton : Nat) :
    Safe.predictSafeAddress owner factory singleton =
      Safe.getCreate2Address factory
        (keccak256 (keccak256 (Safe.abiEncodeSetupArgs owner) ++ toBytesBE 32 0))
        (keccak256 (hexToBytes Safe.proxyCreationCodeHex ++ toBytesBE 32 singleton)) ∧
    Safe.calculateSafeAddress owner factory singleton =
      Safe.getCreate2Address factory
        (keccak256 (keccak256 (Safe.setupSelector ++ Safe.abiEncodeSetupArgs owner) ++
          toBytesBE 32 0))
        (keccak256 (hexToBytes Safe.proxyBytecodeHex ++ toBytesBE 32 singleton)) :=
  ⟨rfl, rfl⟩

/-- C1 counterexample: at owner `0x1111111111111111111111111111111111111111`
with both routines' default proxy factory and singleton, `predictSafeAddress`
and `calculateSafeAddress` return different addresses
(`0xC6bAb8C54dba1b1340A11644fC08c8fe5e586699` against
`0xc253Ee2012316A09D9ee45C3EFfA35eE3b32715c`). -/
theorem C1_counterexample :
    Safe.predictSafeAddressDefaults 0x1111111111111111111111111111111111111111 ≠
      Safe.calculateSafeAddressDefaults 0x1111111111111111111111111111111111111111 := by
  rw [predictSafeAddressDefaults_at_owner1, calculateSafeAddressDefaults_at_owner1]
  decide

/-- C2: for every ownerAddress, proxyFactory and singleton,
`calculateSafeAddress` computes exactly the spec's §4.4 algorithm
(`setupCalldata` = ABI-encoded `setup` call with owners = [owner],
threshold = 1, rest zero; `salt = keccak256(keccak256(setupCalldata) ++
uint256(0))`; `initCode` = proxy creation bytecode ++ singleton as uint256;
result = CREATE2(proxyFactory, salt, keccak256(initCode))). -/
theorem C2_theorem (owner factory singleton : Nat) :
    Safe.calculateSafeAddress owner factory singleton =
      Safe.specSafeAddress owner factory singleton :=
  rfl

/-- C3: for every plaintext `P` and every KeyVault holding a 32-byte master
key, decrypting the encryption of `P` (under an arbitrary 16-byte IV, the
fresh random IV of `encrypt`) returns exactly `P`. -/
theorem C3_theorem (key : List Nat) (P : Str) (iv : List Nat)
    (hkey : key.length = 32) (hiv : iv.length = 16) (hivb : ∀ b ∈ iv, b < 256) :
    kvDecrypt ⟨key⟩ (kvEncrypt ⟨key⟩ P iv) = .ok P := by
  have hct_lt : ∀ b ∈ gcmEncryptBytes key iv (utf8Encode P), b < 256 := by
    unfold gcmEncryptBytes
    exact zipWith_xor_lt _ _ (utf8Encode_lt P) (keystream_lt _ _ _)
  have hctlen : (gcmEncryptBytes key iv (utf8Encode P)).length = (utf8Encode P).length := by
    unfold gcmEncryptBytes
    rw [List.length_zipWith, keystream_length]
    omega
  have htag_lt : ∀ b ∈ gcmTag key iv (gcmEncryptBytes key iv (utf8Encode P)), b < 256 := by
    unfold gcmTag
    exact toBytesBE_lt 16 _
  unfold kvEncrypt kvDecrypt
  dsimp only
  rw [show base64Encode ([] : List Nat) = [] from rfl, List.append_nil]
  rw [nodeBase64_roundtrip _ hivb, nodeBase64_roundtrip _ hct_lt,
    nodeBase64_roundtrip _ htag_lt]
  rw [if_pos rfl]
  unfold gcmDecryptBytes
  rw [hctlen]
  unfold gcmEncryptBytes
  rw [zipWith_xor_cancel _ _ (by rw [keystream_length]), utf8_roundtrip]

/-- C3 witness: a concrete 32-byte key, 16-byte IV and plaintext. -/
theorem C3_witness :
    (List.replicate 32 0 : List Nat).length = 32 ∧
    (List.replicate 16 1 : List Nat).length = 16 ∧
    (∀ b ∈ (List.replicate 16 1 : List Nat), b < 256) ∧
    kvDecrypt ⟨List.replicate 32 0⟩
      (kvEncrypt ⟨List.replicate 32 0⟩ "secret".data (List.replicate 16 1)) =
      .ok "secret".data :=
  ⟨by decide, by decide, by decide,
    C3_theorem (List.replicate 32 0) "secret".data (List.replicate 16 1)
      (by decide) (by decide) (by decide)⟩

/-- C4: a signature freshly created by `createHmacSignature` verifies for the
same method, path, body, timestamp and secret whenever the verification-time
clock is within the validity window. -/
theorem C4_theorem (method path : Str) (body : Option JsValue) (timestamp : Int)
    (secret : Str) (w : Nat) (now : Int) (h : (now - timestamp).natAbs ≤ w * 1000) :
    verifyHmacSignature (createHmacSignature ⟨method, path, body, timestamp, secret⟩)
      method path body timestamp secret w now = ⟨true, none⟩ := by
  unfold verifyHmacSignature
  dsimp only
  rw [if_neg (by omega : ¬ (now - timestamp).natAbs > w * 1000)]
  rw [if_neg (by exact fun hne => hne rfl)]
  rw [if_pos rfl]

/-- C4 witness: a concrete request verified 100 ms after signing within the
default 30 s window. -/
theorem C4_witness :
    ((100 : Int) - 0).natAbs ≤ 30 * 1000 ∧
    verifyHmacSignature (createHmacSignature ⟨"GET".data, "/health".data, none, 0, "s".data⟩)
      "GET".data "/health".data none 0 "s".data 30 100 = ⟨true, none⟩ :=
  ⟨by decide, C4_theorem "GET".data "/health".data none 0 "s".data 30 100 (by decide)⟩

/-- C5: a correctly signed envelope whose timestamp falls outside the
validity window is rejected as invalid with the expiry reason, even though
the signature bytes are correct. -/
theorem C5_theorem (signature method path : Str) (body : Option JsValue) (timestamp : Int)
    (secret : Str) (w : Nat) (now : Int)
    (hsig : signature = createHmacSignature ⟨method, path, body, timestamp, secret⟩)
    (hexp : (now - timestamp).natAbs > w * 1000) :
    (verifyHmacSignature signature method path body timestamp secret w now).valid = false ∧
    ∃ r, (verifyHmacSignature signature method path body timestamp secret w now).reason =
        some r ∧
      "Request timestamp expired".data <+: r := by
  unfold verifyHmacSignature
  dsimp only
  rw [if_pos hexp]
  refine ⟨rfl, expiredReason (now - timestamp).natAbs (w * 1000), rfl, ?_⟩
  have hsplit : "Request timestamp expired. Time difference: ".data =
      "Request timestamp expired".data ++ ". Time difference: ".data := by decide
  unfold expiredReason
  rw [hsplit, List.append_assoc]
  exact ⟨_, rfl⟩

/-- C5 witness: a correctly signed envelope checked 60 s after its timestamp
against a 30 s window. -/
theorem C5_witness :
    (verifyHmacSignature (createHmacSignature ⟨"GET".data, "/".data, none, 0, "s".data⟩)
      "GET".data "/".data none 0 "s".data 30 60000).valid = false ∧
    ∃ r, (verifyHmacSignature (createHmacSignature ⟨"GET".data, "/".data, none, 0, "s".data⟩)
        "GET".data "/".data none 0 "s".data 30 60000).reason = some r ∧
      "Request timestamp expired".data <+: r :=
  C5_theorem _ "GET".data "/".data none 0 "s".data 30 60000 rfl (by decide)

/-- C6: `relay` never raises: a non-2xx response yields a failure whose error
string embeds `<status> - <body>`; a network/timeout failure yields a failure
carrying the thrown message (or the fallback); a 2xx JSON response carrying a
(non-empty) `txHash` or `transactionHash` yields success with that hash. -/
theorem C6_theorem (status : Nat) (body : Str) (json : Except Str RelayJson)
    (failMsg : Option Str) :
    (¬(200 ≤ status ∧ status ≤ 299) →
      relay (.response status body json) = ⟨false, none, some (relayErrorText status body)⟩ ∧
      ∃ pre, relayErrorText status body =
        pre ++ ((toString status).data ++ (" - ".data ++ body))) ∧
    (relay (.failure failMsg) =
      ⟨false, none, some (failMsg.getD "Unknown relayer error".data)⟩) ∧
    (∀ r h, json = .ok r → 200 ≤ status → status ≤ 299 →
      jsOrStr r.txHash r.transactionHash = some h →
      relay (.response status body json) = ⟨true, some h, none⟩) := by
  refine ⟨?_, rfl, ?_⟩
  · intro hne
    refine ⟨?_, "Relayer error: ".data, by unfold relayErrorText; simp [List.append_assoc]⟩
    simp only [relay]
    rw [if_neg hne]
  · intro r h hj h1 h2 hjs
    subst hj
    simp only [relay]
    rw [if_pos ⟨h1, h2⟩, hjs]

/-- C6 witness: a concrete 500 response, a concrete network failure, and a
concrete 200 response carrying a transaction hash. -/
theorem C6_witness :
    (relay (.response 500 "boom".data (.error "x".data)) =
        ⟨false, none, some (relayErrorText 500 "boom".data)⟩ ∧
      ∃ pre, relayErrorText 500 "boom".data =
        pre ++ ((toString 500).data ++ (" - ".data ++ "boom".data))) ∧
    (relay (.failure (some "network timeout".data)) =
      ⟨false, none, some "network timeout".data⟩) ∧
    (relay (.response 200 [] (.ok ⟨some "0xabc".data, none⟩)) =
      ⟨true, some "0xabc".data, none⟩) :=
  ⟨(C6_theorem 500 "boom".data (.error "x".data) none).1 (by omega),
    (C6_theorem 0 [] (.ok ⟨none, none⟩) (some "network timeout".data)).2.1,
    (C6_theorem 200 [] (.ok ⟨some "0xabc".data, none⟩) none).2.2
      ⟨some "0xabc".data, none⟩ "0xabc".data rfl (by omega) (by omega) (by rfl)⟩

/-- C7 (amended): every failure result of `relay` carries an error string,
and every success result arises from a 2xx JSON response and carries exactly
`result.txHash || result.transactionHash` — which is undefined when the 2xx
body contains neither hash, so a success result need not carry a hash. -/
theorem C7_theorem (o : HttpOutcome) :
    ((relay o).success = false → (relay o).error.isSome = true) ∧
    ((relay o).success = true → (relay o).error = none ∧
      ∃ status body r, o = .response status body (.ok r) ∧
        (relay o).txHash = jsOrStr r.txHash r.transactionHash) := by
  cases o with
  | failure msg => exact ⟨fun _ => rfl, fun h => by simp [relay] at h⟩
  | response status body json =>
    by_cases hok : 200 ≤ status ∧ status ≤ 299
    · cases json with
      | ok r =>
        have hr : relay (.response status body (.ok r)) =
            ⟨true, jsOrStr r.txHash r.transactionHash, none⟩ := by
          simp only [relay]
          rw [if_pos hok]
        rw [hr]
        exact ⟨fun h => by simp at h, fun _ => ⟨rfl, status, body, r, rfl, rfl⟩⟩
      | error e =>
        have hr : relay (.response status body (.error e)) = ⟨false, none, some e⟩ := by
          simp only [relay]
          rw [if_pos hok]
        rw [hr]
        exact ⟨fun _ => rfl, fun h => by simp at h⟩
    · have hr : relay (.response status body json) =
          ⟨false, none, some (relayErrorText status body)⟩ := by
        simp only [relay]
        rw [if_neg hok]
      rw [hr]
      exact ⟨fun _ => rfl, fun h => by simp at h⟩

/-- C7 witness: a concrete failing outcome carries an error string, and a
concrete 2xx outcome with a hash is a success tied to its JSON body. -/
theorem C7_witness :
    (relay (.failure none)).error.isSome = true ∧
    ((relay (.response 201 [] (.ok ⟨some "0xdef".data, none⟩))).error = none ∧
      ∃ status body r,
        (HttpOutcome.response 201 [] (.ok ⟨some "0xdef".data, none⟩)) =
          .response status body (.ok r) ∧
        (relay (.response 201 [] (.ok ⟨some "0xdef".data, none⟩))).txHash =
          jsOrStr r.txHash r.transactionHash) :=
  ⟨(C7_theorem (.failure none)).1 rfl,
    (C7_theorem (.response 201 [] (.ok ⟨some "0xdef".data, none⟩))).2 (by rfl)⟩

/-- C7 counterexample: a 200 response whose JSON body contains neither
`txHash` nor `transactionHash` makes `relay` return success with no
transaction hash — a partial success the claim rules out. -/
theorem C7_counterexample :
    (relay (.response 200 [] (.ok ⟨none, none⟩))).success = true ∧
    (relay (.response 200 [] (.ok ⟨none, none⟩))).txHash = none :=
  ⟨rfl, rfl⟩

/-- C8: constructing a KeyVault from a string succeeds exactly when the
string parses (as 64 hex characters, else as base64) to exactly 32 bytes,
and a successfully constructed vault holds exactly 32 key bytes. -/
theorem C8_theorem (key : Str) :
    (∀ kv, mkKeyVaultOfString key = .ok kv → kv.masterKey.length = 32) ∧
    ((∃ kv, mkKeyVaultOfString key = .ok kv) ↔
      ((key.all isHexDigit ∧ key.length = 64) ∨ (nodeBase64Decode key).length = 32)) := by
  by_cases hhex : key.all isHexDigit = true ∧ key.length = 64
  · have hlen : (hexToBytes key).length = 32 := by
      rw [hexToBytes_length, hhex.2]
    have hmk : mkKeyVaultOfString key = .ok ⟨hexToBytes key⟩ := by
      unfold mkKeyVaultOfString parseKey
      rw [if_pos hhex]
      simp [Bind.bind, Except.bind, if_neg (by omega : ¬ (hexToBytes key).length ≠ 32)]
    constructor
    · intro kv hkv
      rw [hmk] at hkv
      cases hkv
      exact hlen
    · exact ⟨fun _ => Or.inl hhex, fun _ => ⟨_, hmk⟩⟩
  · by_cases hb : (nodeBase64Decode key).length = 32
    · have hmk : mkKeyVaultOfString key = .ok ⟨nodeBase64Decode key⟩ := by
        unfold mkKeyVaultOfString parseKey
        rw [if_neg hhex, if_pos hb]
        simp [Bind.bind, Except.bind, if_neg (by omega : ¬ (nodeBase64Decode key).length ≠ 32)]
      constructor
      · intro kv hkv
        rw [hmk] at hkv
        cases hkv
        exact hb
      · exact ⟨fun _ => Or.inr hb, fun _ => ⟨_, hmk⟩⟩
    · have hmk : mkKeyVaultOfString key =
          .error "Master key must be 32 bytes as hex (64 chars) or base64 (44 chars)".data := by
        unfold mkKeyVaultOfString parseKey
        rw [if_neg hhex, if_neg hb]
        rfl
      constructor
      · intro kv hkv
        rw [hmk] at hkv
        cases hkv
      · constructor
        · intro ⟨kv, hkv⟩
          rw [hmk] at hkv
          cases hkv
        · intro h
          rcases h with h | h
          · exact absurd h hhex
          · exact absurd h hb

/-- A concrete 64-hex-character master key used as the C8 witness input. -/
def zeroHexKey64 : Str :=
  "0000000000000000000000000000000000000000000000000000000000000000".data

/-- C8 witness: a concrete 64-hex-character key constructs a vault holding
32 bytes. -/
theorem C8_witness :
    (⟨hexToBytes zeroHexKey64⟩ : KeyVault).masterKey.length = 32 :=
  (C8_theorem zeroHexKey64).1 ⟨hexToBytes zeroHexKey64⟩ (by rfl)

/-- C9: for every 24-byte random draw, `generateApiKey("qnt")` yields a key
starting with `qnt_`, a `keyPrefix` equal to the key's own first 12
characters (and exactly 12 characters long), and a `keyHash` equal to
`hashApiKey` of the full key. -/
theorem C9_theorem (rb : List Nat) (h : rb.length = 24) :
    (generateApiKey "qnt".data rb).key.take 4 = "qnt_".data ∧
    (generateApiKey "qnt".data rb).keyPrefix = (generateApiKey "qnt".data rb).key.take 12 ∧
    (generateApiKey "qnt".data rb).keyPrefix.length = 12 ∧
    (generateApiKey "qnt".data rb).keyHash = hashApiKey (generateApiKey "qnt".data rb).key := by
  have hrand : (base64UrlEncode rb).length = 32 := by
    rw [base64UrlEncode_length_mul3 rb (by omega), h]
  refine ⟨?_, rfl, ?_, rfl⟩
  · show (("qnt".data ++ '_' :: base64UrlEncode rb).take 4) = "qnt_".data
    rfl
  · show (("qnt".data ++ '_' :: base64UrlEncode rb).take 12).length = 12
    rw [List.length_take]
    simp [hrand]

/-- C9 witness: a concrete 24-byte random draw. -/
theorem C9_witness :
    (generateApiKey "qnt".data (List.replicate 24 7)).key.take 4 = "qnt_".data ∧
    (generateApiKey "qnt".data (List.replicate 24 7)).keyPrefix =
      (generateApiKey "qnt".data (List.replicate 24 7)).key.take 12 ∧
    (generateApiKey "qnt".data (List.replicate 24 7)).keyPrefix.length = 12 ∧
    (generateApiKey "qnt".data (List.replicate 24 7)).keyHash =
      hashApiKey (generateApiKey "qnt".data (List.replicate 24 7)).key :=
  C9_theorem (List.replicate 24 7) (by decide)

/-- C10: `createHmacSignature` signs an absent body and every falsy JSON body
(`null`, `0`, `false`, `""`) identically — all of them as the empty body
string — so these distinct requests share one signature. -/
theorem C10_theorem (method path : Str) (ts : Int) (secret : Str) :
    createHmacSignature ⟨method, path, none, ts, secret⟩ =
        createHmacSignature ⟨method, path, some .jsNull, ts, secret⟩ ∧
    createHmacSignature ⟨method, path, none, ts, secret⟩ =
        createHmacSignature ⟨method, path, some (.jsNum 0), ts, secret⟩ ∧
    createHmacSignature ⟨method, path, none, ts, secret⟩ =
        createHmacSignature ⟨method, path, some (.jsBool false), ts, secret⟩ ∧
    createHmacSignature ⟨method, path, none, ts, secret⟩ =
        createHmacSignature ⟨method, path, some (.jsStr []), ts, secret⟩ := by
  refine ⟨rfl, ?_, rfl, ?_⟩ <;> simp [createHmacSignature, jsTruthy]

end Quantish
